import Mathlib

/-!
Verification development for `import_azure_resource_groups.py`.

The script orchestrates external tools (`az`, `terraformer`, `terraform`)
over a filesystem.  We embed it shallowly:

* the filesystem is an explicit state (`FS`): an association list of
  file paths to contents plus a list of existing directories; a path is a
  list of name components;
* every external-tool invocation is answered by an oracle (`World` for the
  per-resource-group functions, `MainWorld` for the driver) that supplies
  the exit code, captured stdout/stderr, and — for the generation tool —
  the set of files it writes;
* every function of the script becomes a pure Lean function threading the
  filesystem and emitting a trace of `Event`s recording which tools were
  invoked, so that claims about "never attempted" are statements about the
  trace.
-/

/-- A filesystem path, as its list of name components. -/
abbrev FPath := List String

/-- Result of one external process invocation: `(returncode, stdout, stderr)`,
mirroring `run` in the script. -/
structure ToolResult where
  code : Int
  stdout : String
  stderr : String
deriving Repr, DecidableEq

/-- Observable actions of the script: tool invocations and the one-time
warning about a missing `terraformer`. -/
inductive Event where
  | exportRun (rg : String)
  | terraformerRun (rg : String) (lbl : String)
  | initRun (lbl : String)
  | warn
  | noneFound
deriving Repr, DecidableEq

/-- Association-list lookup keyed by path (first binding wins). -/
def findVal : List (FPath × String) → FPath → Option String
  | [], _ => none
  | (k, v) :: es, p => if k = p then some v else findVal es p

/-- The filesystem state: file contents and existing directories. -/
structure FS where
  files : List (FPath × String)
  dirs : List FPath
deriving Repr, DecidableEq

def FS.empty : FS := ⟨[], []⟩

def FS.lookupFile (fs : FS) (p : FPath) : Option String :=
  findVal fs.files p

/-- `Path.write_text`: (over)write one file. -/
def FS.writeText (fs : FS) (p : FPath) (c : String) : FS :=
  ⟨(p, c) :: fs.files.filter (fun e => e.1 ≠ p), fs.dirs⟩

/-- `ensure_dir` (`mkdir(parents=True, exist_ok=True)`): the directory and
all its ancestors exist afterwards. -/
def FS.mkdirP (fs : FS) (p : FPath) : FS :=
  ⟨fs.files, p.inits ++ fs.dirs⟩

/-- `shutil.rmtree`: remove the directory and everything below it. -/
def FS.rmtree (fs : FS) (d : FPath) : FS :=
  ⟨fs.files.filter (fun e => ¬ d <+: e.1), fs.dirs.filter (fun q => ¬ d <+: q)⟩

/-- `Path.exists`: the path is a directory or a file. -/
def FS.existsPath (fs : FS) (p : FPath) : Bool :=
  fs.dirs.any (fun q => q = p) || fs.files.any (fun e => e.1 = p)

/-- The external generation tool writing its output files under `base`
(one `writeText` per file, in order). -/
def FS.writeAll (fs : FS) (base : FPath) : List (FPath × String) → FS
  | [] => fs
  | (rel, c) :: rest => FS.writeAll (fs.writeText (base ++ rel) c) base rest

/-! ### Basic filesystem lemmas -/

theorem findVal_filter_key (l : List (FPath × String)) (P : FPath → Prop)
    [DecidablePred P] (p : FPath) :
    findVal (l.filter (fun e => P e.1)) p =
      if P p then findVal l p else none := by
  induction l with
  | nil => simp [findVal]
  | cons e es ih =>
    obtain ⟨k, v⟩ := e
    by_cases hk : P k
    · by_cases hkp : k = p
      · subst hkp
        simp [List.filter, hk, findVal, ih]
      · simp [List.filter, hk, findVal, hkp, ih]
    · by_cases hkp : k = p
      · subst hkp
        simp [List.filter, hk, findVal, ih]
      · simp [List.filter, hk, findVal, hkp, ih]

theorem lookupFile_writeText_self (fs : FS) (p : FPath) (c : String) :
    (fs.writeText p c).lookupFile p = some c := by
  simp [FS.writeText, FS.lookupFile, findVal]

theorem lookupFile_writeText_ne (fs : FS) (p q : FPath) (c : String)
    (h : q ≠ p) :
    (fs.writeText p c).lookupFile q = fs.lookupFile q := by
  have := findVal_filter_key fs.files (fun k => k ≠ p) q
  simp only [FS.writeText, FS.lookupFile, findVal]
  rw [if_neg (fun hpq => h hpq.symm)]
  simpa [h] using this

theorem lookupFile_mkdirP (fs : FS) (p q : FPath) :
    (fs.mkdirP p).lookupFile q = fs.lookupFile q := rfl

theorem lookupFile_rmtree (fs : FS) (d q : FPath) :
    (fs.rmtree d).lookupFile q = if d <+: q then none else fs.lookupFile q := by
  have := findVal_filter_key fs.files (fun k => ¬ d <+: k) q
  simp only [FS.rmtree, FS.lookupFile]
  by_cases h : d <+: q <;> simpa [h] using this

theorem lookupFile_rmtree_not_under (fs : FS) (d q : FPath) (h : ¬ d <+: q) :
    (fs.rmtree d).lookupFile q = fs.lookupFile q := by
  simp [lookupFile_rmtree, h]

theorem dirs_writeText (fs : FS) (p : FPath) (c : String) :
    (fs.writeText p c).dirs = fs.dirs := rfl

theorem dirs_writeAll (fs : FS) (base : FPath) (l : List (FPath × String)) :
    (fs.writeAll base l).dirs = fs.dirs := by
  induction l generalizing fs with
  | nil => rfl
  | cons e rest ih => obtain ⟨rel, c⟩ := e; simp [FS.writeAll, ih, dirs_writeText]

theorem mem_dirs_mkdirP (fs : FS) (p q : FPath) :
    q ∈ (fs.mkdirP p).dirs ↔ q <+: p ∨ q ∈ fs.dirs := by
  simp [FS.mkdirP, List.mem_inits]

theorem mem_dirs_rmtree (fs : FS) (d q : FPath) :
    q ∈ (fs.rmtree d).dirs ↔ q ∈ fs.dirs ∧ ¬ d <+: q := by
  simp [FS.rmtree, List.mem_filter]

theorem existsPath_iff (fs : FS) (p : FPath) :
    fs.existsPath p = true ↔ p ∈ fs.dirs ∨ ∃ c, (p, c) ∈ fs.files := by
  constructor
  · intro h
    rcases Bool.or_eq_true_iff.mp h with h | h
    · rcases List.any_eq_true.mp h with ⟨q, hq, hq'⟩
      exact Or.inl (by simpa [of_decide_eq_true hq'] using hq)
    · rcases List.any_eq_true.mp h with ⟨e, he, he'⟩
      have hep : e.1 = p := of_decide_eq_true he'
      exact Or.inr ⟨e.2, by rw [← hep]; simpa using he⟩
  · intro h
    rcases h with h | ⟨c, hc⟩
    · exact Bool.or_eq_true_iff.mpr (Or.inl (List.any_eq_true.mpr ⟨p, h, by simp⟩))
    · exact Bool.or_eq_true_iff.mpr (Or.inr (List.any_eq_true.mpr ⟨(p, c), hc, by simp⟩))

theorem existsPath_of_mem_dirs (fs : FS) (p : FPath) (h : p ∈ fs.dirs) :
    fs.existsPath p = true :=
  (existsPath_iff fs p).mpr (Or.inl h)

theorem lookupFile_writeAll_congr (base : FPath) (l : List (FPath × String))
    (fs fs' : FS) (q : FPath) (h : fs.lookupFile q = fs'.lookupFile q) :
    (fs.writeAll base l).lookupFile q = (fs'.writeAll base l).lookupFile q := by
  induction l generalizing fs fs' with
  | nil => simpa [FS.writeAll] using h
  | cons e rest ih =>
    obtain ⟨rel, c⟩ := e
    refine ih (fs.writeText (base ++ rel) c) (fs'.writeText (base ++ rel) c) ?_
    by_cases hq : q = base ++ rel
    · subst hq; simp [lookupFile_writeText_self]
    · simp [lookupFile_writeText_ne _ _ _ _ hq, h]

theorem lookupFile_writeAll_not_under (base : FPath) (l : List (FPath × String))
    (fs : FS) (q : FPath) (h : ¬ base <+: q) :
    (fs.writeAll base l).lookupFile q = fs.lookupFile q := by
  induction l generalizing fs with
  | nil => rfl
  | cons e rest ih =>
    obtain ⟨rel, c⟩ := e
    rw [FS.writeAll, ih, lookupFile_writeText_ne]
    intro hq
    exact h (hq ▸ List.prefix_append base rel)

theorem lookupFile_writeAll_mem (base : FPath) (l : List (FPath × String))
    (fs : FS) (q : FPath) :
    ((fs.writeAll base l).lookupFile q ≠ none) ↔
      (fs.lookupFile q ≠ none ∨ ∃ rel c, (rel, c) ∈ l ∧ q = base ++ rel) := by
  induction l generalizing fs with
  | nil => simp [FS.writeAll]
  | cons e rest ih =>
    obtain ⟨rel, c⟩ := e
    rw [FS.writeAll, ih]
    constructor
    · rintro (h | h)
      · by_cases hq : q = base ++ rel
        · exact Or.inr ⟨rel, c, by simp, hq⟩
        · rw [lookupFile_writeText_ne _ _ _ _ hq] at h
          exact Or.inl h
      · rcases h with ⟨rel', c', hm, hq⟩
        exact Or.inr ⟨rel', c', by simp [hm], hq⟩
    · rintro (h | ⟨rel', c', hm, hq⟩)
      · by_cases hq : q = base ++ rel
        · subst hq; left; simp [lookupFile_writeText_self]
        · left; rwa [lookupFile_writeText_ne _ _ _ _ hq]
      · rcases List.mem_cons.mp hm with hm | hm
        · left
          have : rel' = rel := by simpa using congrArg Prod.fst hm
          subst this
          subst hq
          simp [lookupFile_writeText_self]
        · exact Or.inr ⟨rel', c', hm, hq⟩

/-! ### FPath helper lemmas -/

theorem append_singleton_ne (xs : FPath) (a b : String) (h : a ≠ b) :
    xs ++ [a] ≠ xs ++ [b] := by
  intro he
  exact h (by simpa using List.append_cancel_left he)

theorem not_prefix_append_of_head_ne (xs : FPath) (a b : String)
    (t₁ t₂ : FPath) (h : a ≠ b) :
    ¬ (xs ++ a :: t₁) <+: (xs ++ b :: t₂) := by
  intro hp
  rw [List.prefix_append_right_inj] at hp
  exact h (List.cons_prefix_cons.mp hp).1

theorem length_lt_of_proper_prefix {p q : FPath} (h : p <+: q) (hne : q ≠ p) :
    p.length < q.length := by
  rcases lt_or_eq_of_le h.length_le with hlt | heq
  · exact hlt
  · exact absurd (List.IsPrefix.eq_of_length h heq).symm hne

/-! ### `safe_name` (the `INVALID_NAME_RE` substitution) -/

/-- The characters matched by `INVALID_NAME_RE = re.compile(r'[\\/:*?"<>|]')`. -/
def invalidChars : List Char := ['\\', '/', ':', '*', '?', '"', '<', '>', '|']

/-- One step of `INVALID_NAME_RE.sub('-', ·)`: each matched character is
replaced by `'-'`. -/
def sanitizeChar (c : Char) : Char := if c ∈ invalidChars then '-' else c

/-- `safe_name`: `INVALID_NAME_RE.sub('-', name)`. -/
def safe_name (name : String) : String := ⟨name.data.map sanitizeChar⟩

theorem sanitizeChar_idem (c : Char) : sanitizeChar (sanitizeChar c) = sanitizeChar c := by
  by_cases h : c ∈ invalidChars <;> simp [sanitizeChar, h]

theorem sanitizeChar_not_invalid (c : Char) : sanitizeChar c ∉ invalidChars := by
  by_cases h : c ∈ invalidChars
  · simp only [sanitizeChar, if_pos h]
    decide
  · simpa [sanitizeChar, h] using h

/-! ### Lexicographic order on paths (how `sorted` orders `Path` objects) -/

/-- Strict lexicographic order on lists, from a strict order on elements. -/
def lexLt (ltb : α → α → Bool) [DecidableEq α] : List α → List α → Bool
  | [], [] => false
  | [], _ :: _ => true
  | _ :: _, [] => false
  | a :: as, b :: bs => ltb a b || (decide (a = b) && lexLt ltb as bs)

/-- Strict order on strings: lexicographic by character code points. -/
def strLt (a b : String) : Bool := lexLt (fun c d => decide (c < d)) a.data b.data

/-- The (non-strict) order by which candidate file paths are sorted:
componentwise-lexicographic, components compared as strings. -/
def pathLE (p q : FPath) : Bool := decide (p = q) || lexLt strLt p q

theorem lexLt_trans (ltb : α → α → Bool) [DecidableEq α]
    (htr : ∀ a b c, ltb a b = true → ltb b c = true → ltb a c = true) :
    ∀ l₁ l₂ l₃, lexLt ltb l₁ l₂ = true → lexLt ltb l₂ l₃ = true →
      lexLt ltb l₁ l₃ = true := by
  intro l₁
  induction l₁ with
  | nil =>
    intro l₂ l₃ h12 h23
    cases l₂ with
    | nil => simp [lexLt] at h12
    | cons b bs =>
      cases l₃ with
      | nil => simp [lexLt] at h23
      | cons c cs => simp [lexLt]
  | cons a as ih =>
    intro l₂ l₃ h12 h23
    cases l₂ with
    | nil => simp [lexLt] at h12
    | cons b bs =>
      cases l₃ with
      | nil => simp [lexLt] at h23
      | cons c cs =>
        simp only [lexLt, Bool.or_eq_true, Bool.and_eq_true, decide_eq_true_eq] at h12 h23 ⊢
        rcases h12 with h12 | ⟨rfl, h12⟩
        · rcases h23 with h23 | ⟨rfl, h23⟩
          · exact Or.inl (htr _ _ _ h12 h23)
          · exact Or.inl h12
        · rcases h23 with h23 | ⟨rfl, h23⟩
          · exact Or.inl h23
          · exact Or.inr ⟨rfl, ih _ _ h12 h23⟩

theorem lexLt_trichotomy (ltb : α → α → Bool) [DecidableEq α]
    (htri : ∀ a b, ltb a b = true ∨ a = b ∨ ltb b a = true) :
    ∀ l₁ l₂, lexLt ltb l₁ l₂ = true ∨ l₁ = l₂ ∨ lexLt ltb l₂ l₁ = true := by
  intro l₁
  induction l₁ with
  | nil =>
    intro l₂
    cases l₂ with
    | nil => exact Or.inr (Or.inl rfl)
    | cons b bs => exact Or.inl (by simp [lexLt])
  | cons a as ih =>
    intro l₂
    cases l₂ with
    | nil => exact Or.inr (Or.inr (by simp [lexLt]))
    | cons b bs =>
      rcases htri a b with hab | rfl | hba
      · exact Or.inl (by simp [lexLt, hab])
      · rcases ih bs with h | rfl | h
        · exact Or.inl (by simp [lexLt, h])
        · exact Or.inr (Or.inl rfl)
        · exact Or.inr (Or.inr (by simp [lexLt, h]))
      · exact Or.inr (Or.inr (by simp [lexLt, hba]))

theorem strLt_trans (a b c : String) (h1 : strLt a b = true)
    (h2 : strLt b c = true) : strLt a c = true := by
  unfold strLt at h1 h2 ⊢
  exact lexLt_trans (fun c d : Char => decide (c < d))
    (fun x y z hxy hyz =>
      decide_eq_true (lt_trans (of_decide_eq_true hxy) (of_decide_eq_true hyz)))
    a.data b.data c.data h1 h2

theorem strLt_trichotomy (a b : String) :
    strLt a b = true ∨ a = b ∨ strLt b a = true := by
  rcases lexLt_trichotomy (fun c d : Char => decide (c < d))
      (fun c d => by
        rcases lt_trichotomy c d with h | h | h
        · exact Or.inl (decide_eq_true h)
        · exact Or.inr (Or.inl h)
        · exact Or.inr (Or.inr (decide_eq_true h)))
      a.data b.data with h | h | h
  · exact Or.inl h
  · exact Or.inr (Or.inl (String.ext h))
  · exact Or.inr (Or.inr h)

theorem pathLE_total (p q : FPath) : pathLE p q = true ∨ pathLE q p = true := by
  rcases lexLt_trichotomy strLt (fun a b => strLt_trichotomy a b) p q with h | h | h
  · exact Or.inl (by simp [pathLE, h])
  · exact Or.inl (by simp [pathLE, h])
  · exact Or.inr (by simp [pathLE, h])

theorem pathLE_trans (p q r : FPath) (h1 : pathLE p q = true)
    (h2 : pathLE q r = true) : pathLE p r = true := by
  simp only [pathLE, Bool.or_eq_true, decide_eq_true_eq] at h1 h2 ⊢
  rcases h1 with rfl | h1
  · exact h2
  · rcases h2 with rfl | h2
    · exact Or.inr h1
    · exact Or.inr (lexLt_trans strLt (fun a b c => strLt_trans a b c) _ _ _ h1 h2)

/-! ### Consolidation (`consolidate_tf`) -/

/-- Whether a path's file name matches the `'*.tf'` glob (the name ends
with `.tf`). -/
def isTfName (p : FPath) : Bool :=
  match p.getLast? with
  | some s => List.isSuffixOf ".tf".data s.data
  | none => false

/-- `chosen_dir.rglob('*.tf')` followed by `sorted`: every file strictly
below `d` whose name ends in `.tf`, in lexical path order. -/
def tfPaths (fs : FS) (d : FPath) : List FPath :=
  ((fs.files.map Prod.fst).filter
      (fun p => decide (d <+: p) && decide (p ≠ d) && isTfName p)).mergeSort pathLE

/-- `str(tf.relative_to(chosen_dir))`. -/
def relStr (d p : FPath) : String := String.intercalate "/" (p.drop d.length)

/-- `tf.read_text()` (the paths fed to it always exist). -/
def FS.readText (fs : FS) (p : FPath) : String := (fs.lookupFile p).getD ""

/-- The text `consolidate_tf` writes: for each discovered file, the
provenance header line followed by the file's content. -/
def consolidatedText (fs : FS) (d : FPath) : String :=
  String.join ((tfPaths fs d).map
    (fun p => "\n// ===== file: " ++ relStr d p ++ " =====\n" ++ fs.readText p))

/-- `consolidate_tf`: concatenate all `.tf` files under `chosen_dir` into
`target_main`. -/
def consolidate_tf (fs : FS) (chosen_dir target_main : FPath) : FS :=
  fs.writeText target_main (consolidatedText fs chosen_dir)

theorem mem_tfPaths (fs : FS) (d p : FPath) :
    p ∈ tfPaths fs d ↔
      p ∈ fs.files.map Prod.fst ∧ d <+: p ∧ p ≠ d ∧ isTfName p = true := by
  rw [tfPaths, List.mem_mergeSort, List.mem_filter]
  simp [and_assoc]

theorem tfPaths_sorted (fs : FS) (d : FPath) :
    (tfPaths fs d).Pairwise (fun p q => pathLE p q = true) :=
  List.sorted_mergeSort (fun a b c => pathLE_trans a b c)
    (fun a b => Bool.or_eq_true_iff.mpr (pathLE_total a b)) _

theorem tfPaths_writeText_not_under (fs : FS) (d t : FPath) (c : String)
    (h : ¬ d <+: t) : tfPaths (fs.writeText t c) d = tfPaths fs d := by
  unfold tfPaths
  congr 1
  rw [FS.writeText]
  show List.filter _ (List.map Prod.fst ((t, c) :: _)) = _
  rw [List.map_cons, List.filter_cons_of_neg (by simp [h]),
    List.map_filter Prod.fst (List.filter _ fs.files),
    List.map_filter Prod.fst fs.files, List.filter_filter]
  congr 1
  apply List.filter_congr
  intro e _
  by_cases h1 : d <+: e.1
  · by_cases h2 : e.1 = d
    · simp [Function.comp, h2]
    · have hnt : e.1 ≠ t := fun het => h (het ▸ h1)
      simp [Function.comp, h1, h2, hnt]
  · simp [Function.comp, h1]

theorem consolidatedText_writeText_not_under (fs : FS) (d t : FPath)
    (c : String) (h : ¬ d <+: t) :
    consolidatedText (fs.writeText t c) d = consolidatedText fs d := by
  unfold consolidatedText
  rw [tfPaths_writeText_not_under fs d t c h]
  congr 1
  apply List.map_congr_left
  intro p hp
  have hup : d <+: p := ((mem_tfPaths fs d p).mp hp).2.1
  have : p ≠ t := fun hpt => h (hpt ▸ hup)
  rw [FS.readText, FS.readText, lookupFile_writeText_ne _ _ _ _ this]

/-! ### The script's per-resource-group functions

External tool invocations are answered by a `World` oracle: for each tool
the exit code and captured output, and for `terraformer` also the files it
writes (as paths relative to the `--path` directory, with their contents).
-/

/-- Oracle for the external tools touched while processing one resource
group.  `terraformerRes`/`terraformerFiles` are keyed by the log prefix of
the attempt (`"tf_azurerm"` / `"tf_azapi"`), `initRes` by the validation
label (`"azurerm"` / `"azapi"`). -/
structure World where
  exportRes : ToolResult
  terraformerRes : String → ToolResult
  terraformerFiles : String → List (FPath × String)
  initRes : String → ToolResult

/-- `export_arm_template`: run `az group export`; on failure return `False`
without writing; on success write stdout to `out_path` and return `True`. -/
def export_arm_template (w : World) (rg_name : String) (out_path : FPath)
    (fs : FS) : Bool × FS × List Event :=
  let r := w.exportRes
  if r.code ≠ 0 then (false, fs, [Event.exportRun rg_name])
  else (true, fs.writeText out_path r.stdout, [Event.exportRun rg_name])

/-- `terraformer_import`: reset `dest` (rmtree if present, then mkdir), run
`terraformer` (which writes its files under `dest`), capture stdout/stderr
into `<lbl>_out.log` / `<lbl>_err.log` next to `dest` (in `dest.parent`),
and report whether the tool exited 0. -/
def terraformer_import (w : World) (rg_name : String) (dest : FPath)
    (lbl : String) (fs : FS) : Bool × FS × List Event :=
  let fs1 := if fs.existsPath dest then fs.rmtree dest else fs
  let fs2 := fs1.mkdirP dest
  let r := w.terraformerRes lbl
  let fs3 := fs2.writeAll dest (w.terraformerFiles lbl)
  let fs4 := fs3.writeText (dest.dropLast ++ [lbl ++ "_out.log"]) r.stdout
  let fs5 := fs4.writeText (dest.dropLast ++ [lbl ++ "_err.log"]) r.stderr
  (decide (r.code = 0), fs5, [Event.terraformerRun rg_name lbl])

/-- `terraform_init_ok`: if the directory does not exist, fail without
running anything; otherwise run `terraform init` in it, capture output into
`init_<lbl>_out.txt` / `init_<lbl>_err.txt` inside the directory, and
report whether the exit status was 0. -/
def terraform_init_ok (w : World) (path : FPath) (lbl : String) (fs : FS) :
    Bool × FS × List Event :=
  if fs.existsPath path = false then (false, fs, [])
  else
    let r := w.initRes lbl
    let fs1 := fs.writeText (path ++ ["init_" ++ lbl ++ "_out.txt"]) r.stdout
    let fs2 := fs1.writeText (path ++ ["init_" ++ lbl ++ "_err.txt"]) r.stderr
    (decide (r.code = 0), fs2, [Event.initRun lbl])

/-- `process_resource_group`: the per-group fallback pipeline.  Returns the
`chosen` directory (the function's local variable at return time) together
with the filesystem and the trace of tool invocations. -/
def process_resource_group (w : World) (rg_name : String) (subs_folder : FPath)
    (has_terraformer : Bool) (fs : FS) : Option FPath × FS × List Event :=
  let rg_folder := subs_folder ++ [safe_name rg_name]
  let fs0 := fs.mkdirP rg_folder
  let arm_out := rg_folder ++ ["template.json"]
  let e := export_arm_template w rg_name arm_out fs0
  if e.1 = false then (none, e.2.1, e.2.2)
  else
    let tf_azurerm := rg_folder ++ ["terraform_azurerm"]
    let tf_azapi := rg_folder ++ ["terraform_azapi"]
    let step1 : Option FPath × FS × List Event :=
      if has_terraformer then
        let g := terraformer_import w rg_name tf_azurerm "tf_azurerm" e.2.1
        if g.1 then
          let v := terraform_init_ok w tf_azurerm "azurerm" g.2.1
          ((if v.1 then some tf_azurerm else none), v.2.1, g.2.2 ++ v.2.2)
        else (none, g.2.1, g.2.2)
      else (none, e.2.1, [])
    let step2 : Option FPath × FS × List Event :=
      if step1.1 = none ∧ has_terraformer then
        let g := terraformer_import w rg_name tf_azapi "tf_azapi" step1.2.1
        if g.1 then
          let v := terraform_init_ok w tf_azapi "azapi" g.2.1
          ((if v.1 then some tf_azapi else none), v.2.1,
            step1.2.2 ++ g.2.2 ++ v.2.2)
        else (none, g.2.1, step1.2.2 ++ g.2.2)
      else step1
    (step2.1,
      (match step2.1 with
       | some d => consolidate_tf step2.2.1 d (rg_folder ++ ["main.tf"])
       | none => step2.2.1),
      e.2.2 ++ step2.2.2)

/-! ### The batch driver (`main` and its collaborators) -/

/-- Oracle for the whole run: environment, the `az` session commands, the
`terraformer` presence check, the group listing, and a per-group `World`. -/
structure MainWorld where
  envClientId : Option String
  envClientSecret : Option String
  envTenantId : Option String
  spLoginCode : Int
  accountShowCode : Int
  interactiveLoginCode : Int
  accountSetCode : Int
  groupListCode : Int
  groupNames : List String
  hasTerraformer : Bool
  groupWorld : String → World

/-- Python truthiness of `os.environ.get(...)`: unset or empty is falsy. -/
def envTruthy : Option String → Bool
  | none => false
  | some s => s ≠ ""

/-- `az_login`: service-principal or interactive session setup; raises
`SystemExit` (modelled as `.error`) on failure. -/
def az_login (mw : MainWorld) (use_sp : Bool) : Except String Unit :=
  if use_sp then
    if envTruthy mw.envClientId && envTruthy mw.envClientSecret &&
        envTruthy mw.envTenantId then
      if mw.spLoginCode ≠ 0 then .error "az login (service-principal) failed"
      else .ok ()
    else .error "Service principal requested but AZCLIENTID/AZCLIENTSECRET/AZTENANTID not set in environment"
  else
    if mw.accountShowCode ≠ 0 then
      if mw.interactiveLoginCode ≠ 0 then .error "az login failed" else .ok ()
    else .ok ()

/-- `set_subscription`. -/
def set_subscription (mw : MainWorld) : Except String Unit :=
  if mw.accountSetCode ≠ 0 then .error "Failed to set subscription" else .ok ()

/-- `list_resource_groups` (the JSON parse is elided: the oracle provides
the group names directly). -/
def list_resource_groups (mw : MainWorld) : Except String (List String) :=
  if mw.groupListCode ≠ 0 then .error "Failed to list resource groups"
  else .ok mw.groupNames

/-- The `for rg in rgs` loop of `main`. -/
def processGroups (mw : MainWorld) (subs_folder : FPath)
    (has_terraformer : Bool) : List String → FS → FS × List Event
  | [], fs => (fs, [])
  | rg :: rest, fs =>
    let r := process_resource_group (mw.groupWorld rg) rg subs_folder
      has_terraformer fs
    let r' := processGroups mw subs_folder has_terraformer rest r.2.1
    (r'.1, r.2.2 ++ r'.2)

/-- `main`: argument handling elided; `output_root` is modelled as a single
root component (`Path.resolve` of the flag).  Fatal `SystemExit`s become
`.error`; otherwise the final filesystem and the event trace are returned. -/
def mainRun (mw : MainWorld) (subscription_id output_root : String)
    (use_sp : Bool) (fs : FS) : Except String (FS × List Event) :=
  let out_root : FPath := [output_root]
  let fs0 := fs.mkdirP out_root
  match az_login mw use_sp with
  | .error e => .error e
  | .ok _ =>
    match set_subscription mw with
    | .error e => .error e
    | .ok _ =>
      let subs_folder := out_root ++ [subscription_id]
      let fs1 := fs0.mkdirP subs_folder
      let has_terraformer := mw.hasTerraformer
      let warnEvs : List Event := if has_terraformer then [] else [Event.warn]
      match list_resource_groups mw with
      | .error e => .error e
      | .ok rgs =>
        if rgs = [] then .ok (fs1, warnEvs ++ [Event.noneFound])
        else
          let r := processGroups mw subs_folder has_terraformer rgs fs1
          .ok (r.1, warnEvs ++ r.2)

/-! ### Effect and frame lemmas for the script functions -/

theorem str_append_ne_of_ne (s t₁ t₂ : String) (h : t₁ ≠ t₂) :
    s ++ t₁ ≠ s ++ t₂ := by
  intro he
  apply h
  apply String.ext
  have hd := congrArg String.data he
  rw [String.data_append, String.data_append] at hd
  exact List.append_cancel_left hd

theorem export_arm_template_eq_ok (w : World) (rg : String) (out_path : FPath)
    (fs : FS) (h : w.exportRes.code = 0) :
    export_arm_template w rg out_path fs =
      (true, fs.writeText out_path w.exportRes.stdout, [Event.exportRun rg]) := by
  simp [export_arm_template, h]

theorem export_arm_template_eq_fail (w : World) (rg : String)
    (out_path : FPath) (fs : FS) (h : ¬ w.exportRes.code = 0) :
    export_arm_template w rg out_path fs = (false, fs, [Event.exportRun rg]) := by
  simp [export_arm_template, h]

theorem terraformer_import_fst (w : World) (rg : String) (dest : FPath)
    (lbl : String) (fs : FS) :
    (terraformer_import w rg dest lbl fs).1 =
      decide ((w.terraformerRes lbl).code = 0) := rfl

theorem terraformer_import_evs (w : World) (rg : String) (dest : FPath)
    (lbl : String) (fs : FS) :
    (terraformer_import w rg dest lbl fs).2.2 =
      [Event.terraformerRun rg lbl] := rfl

theorem dirs_terraformer_import (w : World) (rg : String) (dest : FPath)
    (lbl : String) (fs : FS) :
    (terraformer_import w rg dest lbl fs).2.1.dirs =
      dest.inits ++ (if fs.existsPath dest then fs.rmtree dest else fs).dirs := by
  simp only [terraformer_import]
  rw [dirs_writeText, dirs_writeText, dirs_writeAll]
  rfl

theorem existsPath_terraformer_import_dest (w : World) (rg : String)
    (dest : FPath) (lbl : String) (fs : FS) :
    (terraformer_import w rg dest lbl fs).2.1.existsPath dest = true := by
  apply existsPath_of_mem_dirs
  rw [dirs_terraformer_import]
  exact List.mem_append.mpr (Or.inl ((List.mem_inits dest dest).mpr
    (List.prefix_refl dest)))

theorem lookupFile_terraformer_import_frame (w : World) (rg : String)
    (dest : FPath) (lbl : String) (fs : FS) (q : FPath)
    (h1 : ¬ dest <+: q)
    (h2 : q ≠ dest.dropLast ++ [lbl ++ "_out.log"])
    (h3 : q ≠ dest.dropLast ++ [lbl ++ "_err.log"]) :
    (terraformer_import w rg dest lbl fs).2.1.lookupFile q = fs.lookupFile q := by
  simp only [terraformer_import]
  rw [lookupFile_writeText_ne _ _ _ _ h3, lookupFile_writeText_ne _ _ _ _ h2,
    lookupFile_writeAll_not_under _ _ _ _ h1, lookupFile_mkdirP]
  by_cases hex : fs.existsPath dest = true
  · simp [hex, lookupFile_rmtree_not_under _ _ _ h1]
  · simp [hex]

theorem lookupFile_terraformer_import_outlog (w : World) (rg : String)
    (dest : FPath) (lbl : String) (fs : FS) :
    (terraformer_import w rg dest lbl fs).2.1.lookupFile
      (dest.dropLast ++ [lbl ++ "_out.log"]) = some (w.terraformerRes lbl).stdout := by
  simp only [terraformer_import]
  rw [lookupFile_writeText_ne _ _ _ _
      (append_singleton_ne _ _ _ (str_append_ne_of_ne lbl _ _ (by decide))),
    lookupFile_writeText_self]

theorem lookupFile_terraformer_import_errlog (w : World) (rg : String)
    (dest : FPath) (lbl : String) (fs : FS) :
    (terraformer_import w rg dest lbl fs).2.1.lookupFile
      (dest.dropLast ++ [lbl ++ "_err.log"]) = some (w.terraformerRes lbl).stderr := by
  simp only [terraformer_import]
  rw [lookupFile_writeText_self]

theorem terraform_init_ok_fst_of_exists (w : World) (path : FPath)
    (lbl : String) (fs : FS) (hex : fs.existsPath path = true) :
    (terraform_init_ok w path lbl fs).1 =
      decide ((w.initRes lbl).code = 0) := by
  simp [terraform_init_ok, hex]

theorem terraform_init_ok_evs_of_exists (w : World) (path : FPath)
    (lbl : String) (fs : FS) (hex : fs.existsPath path = true) :
    (terraform_init_ok w path lbl fs).2.2 = [Event.initRun lbl] := by
  simp [terraform_init_ok, hex]

theorem dirs_terraform_init_ok (w : World) (path : FPath) (lbl : String)
    (fs : FS) : (terraform_init_ok w path lbl fs).2.1.dirs = fs.dirs := by
  unfold terraform_init_ok
  by_cases hex : fs.existsPath path = false <;> simp [hex, dirs_writeText]

theorem lookupFile_terraform_init_ok_frame (w : World) (path : FPath)
    (lbl : String) (fs : FS) (q : FPath) (h : ¬ path <+: q) :
    (terraform_init_ok w path lbl fs).2.1.lookupFile q = fs.lookupFile q := by
  unfold terraform_init_ok
  by_cases hex : fs.existsPath path = false
  · simp [hex]
  · rw [if_neg hex]
    dsimp only
    rw [lookupFile_writeText_ne _ _ _ _
        (fun hq => h (by rw [hq]; exact List.prefix_append path _)),
      lookupFile_writeText_ne _ _ _ _
        (fun hq => h (by rw [hq]; exact List.prefix_append path _))]

theorem terraform_init_ok_outlog (w : World) (path : FPath) (lbl : String)
    (fs : FS) (hex : fs.existsPath path = true) :
    (terraform_init_ok w path lbl fs).2.1.lookupFile
      (path ++ ["init_" ++ lbl ++ "_out.txt"]) = some (w.initRes lbl).stdout := by
  simp only [terraform_init_ok, hex]
  rw [if_neg (by simp)]
  rw [lookupFile_writeText_ne _ _ _ _ (append_singleton_ne _ _ _
      (str_append_ne_of_ne ("init_" ++ lbl) _ _ (by decide))),
    lookupFile_writeText_self]

theorem terraform_init_ok_errlog (w : World) (path : FPath) (lbl : String)
    (fs : FS) (hex : fs.existsPath path = true) :
    (terraform_init_ok w path lbl fs).2.1.lookupFile
      (path ++ ["init_" ++ lbl ++ "_err.txt"]) = some (w.initRes lbl).stderr := by
  simp only [terraform_init_ok, hex]
  rw [if_neg (by simp)]
  rw [lookupFile_writeText_self]

/-! ### Concrete oracles used by witnesses and counterexamples -/

/-- A world where every tool succeeds and the generation tool writes no
files. -/
def allOkWorld : World :=
  ⟨⟨0, "T", ""⟩, fun _ => ⟨0, "genout", "generr"⟩, fun _ => [],
    fun _ => ⟨0, "initout", "initerr"⟩⟩

/-- A world where export and generation succeed but `terraform init`
fails for every candidate. -/
def initFailWorld : World :=
  ⟨⟨0, "T", ""⟩, fun _ => ⟨0, "genout", "generr"⟩, fun _ => [],
    fun _ => ⟨1, "initout", "initerr"⟩⟩

/-- A world where the generation tool writes one `.tf` file. -/
def oneFileWorld : World :=
  ⟨⟨0, "T", ""⟩, fun _ => ⟨0, "genout", "generr"⟩,
    fun _ => [(["x.tf"], "A")], fun _ => ⟨0, "initout", "initerr"⟩⟩

theorem sanitizeChar_eq_of_not_mem (c : Char) (h : c ∉ invalidChars) :
    sanitizeChar c = c := by
  simp [sanitizeChar, h]

/-- C10: `safe_name` is idempotent, its output contains none of the unsafe
characters `\ / : * ? " < > |`, and safe characters are preserved unchanged
in their original positions (same length, same character wherever the input
character was safe). -/
theorem safe_name_spec (s : String) :
    safe_name (safe_name s) = safe_name s ∧
    (∀ c ∈ (safe_name s).data, c ∉ invalidChars) ∧
    (safe_name s).data.length = s.data.length ∧
    (∀ (i : Nat) (c : Char), s.data[i]? = some c → c ∉ invalidChars →
      (safe_name s).data[i]? = some c) := by
  refine ⟨?_, ?_, ?_, ?_⟩
  · apply String.ext
    show (s.data.map sanitizeChar).map sanitizeChar = s.data.map sanitizeChar
    rw [List.map_map]
    exact List.map_congr_left (fun a _ => sanitizeChar_idem a)
  · intro c hc
    have : c ∈ s.data.map sanitizeChar := hc
    rcases List.mem_map.mp this with ⟨c', _, rfl⟩
    exact sanitizeChar_not_invalid c'
  · show (s.data.map sanitizeChar).length = s.data.length
    exact List.length_map s.data sanitizeChar
  · intro i c hi hc
    show (s.data.map sanitizeChar)[i]? = some c
    rw [List.getElem?_map, hi]
    simp [sanitizeChar_eq_of_not_mem c hc]

/-- Witness for C10 at the concrete input `"a:b"`. -/
theorem safe_name_spec_witness :
    safe_name (safe_name "a:b") = safe_name "a:b" ∧
    (safe_name "a:b").data[0]? = some 'a' := by
  refine ⟨(safe_name_spec "a:b").1, ?_⟩
  exact (safe_name_spec "a:b").2.2.2 0 'a' (by decide) (by decide)

/-- C8: if the candidate directory does not exist, `terraform_init_ok`
returns failure without running the check and without writing any log
files; if it exists, it returns success exactly when the check's exit
status is zero. -/
theorem terraform_init_ok_contract (w : World) (path : FPath) (lbl : String)
    (fs : FS) :
    (fs.existsPath path = false →
      terraform_init_ok w path lbl fs = (false, fs, [])) ∧
    (fs.existsPath path = true →
      ((terraform_init_ok w path lbl fs).1 = true ↔
        (w.initRes lbl).code = 0)) := by
  constructor
  · intro h
    simp [terraform_init_ok, h]
  · intro h
    rw [terraform_init_ok_fst_of_exists w path lbl fs h]
    exact decide_eq_true_iff

/-- Witness for C8: a missing directory fails with no writes; an existing
directory succeeds when the check exits 0. -/
theorem terraform_init_ok_contract_witness :
    terraform_init_ok allOkWorld ["d"] "azurerm" FS.empty =
      (false, FS.empty, []) ∧
    (terraform_init_ok allOkWorld ["d"] "azurerm"
      (FS.empty.mkdirP ["d"])).1 = true := by
  constructor
  · exact (terraform_init_ok_contract allOkWorld ["d"] "azurerm" FS.empty).1
      (by decide)
  · exact ((terraform_init_ok_contract allOkWorld ["d"] "azurerm"
      (FS.empty.mkdirP ["d"])).2 (by decide)).mpr (by decide)

/-- C5: consolidation discovers exactly the `.tf` files under the chosen
directory (recursively), writes them in lexical order of their paths, each
preceded by its `// ===== file: <relative path> =====` provenance header;
re-running it on the unchanged directory is byte-identical, and zero `.tf`
files yield a created-but-empty target file. -/
theorem consolidate_tf_spec (fs : FS) (d t : FPath) (hnt : ¬ d <+: t) :
    (∀ p, p ∈ tfPaths fs d ↔
      (p ∈ fs.files.map Prod.fst ∧ d <+: p ∧ p ≠ d ∧ isTfName p = true)) ∧
    (tfPaths fs d).Pairwise (fun p q => pathLE p q = true) ∧
    (consolidate_tf fs d t).lookupFile t =
      some (String.join ((tfPaths fs d).map
        (fun p => "\n// ===== file: " ++ relStr d p ++ " =====\n" ++
          fs.readText p))) ∧
    (consolidate_tf (consolidate_tf fs d t) d t).lookupFile t =
      (consolidate_tf fs d t).lookupFile t ∧
    (tfPaths fs d = [] → (consolidate_tf fs d t).lookupFile t = some "") := by
  refine ⟨mem_tfPaths fs d, tfPaths_sorted fs d, ?_, ?_, ?_⟩
  · simp only [consolidate_tf]
    rw [lookupFile_writeText_self]
    rfl
  · simp only [consolidate_tf]
    rw [lookupFile_writeText_self, lookupFile_writeText_self,
      consolidatedText_writeText_not_under fs d t _ hnt]
  · intro h
    simp only [consolidate_tf]
    rw [lookupFile_writeText_self, consolidatedText, h]
    rfl

/-- Witness for C5 on a concrete directory holding one `.tf` file and one
non-`.tf` file. -/
theorem consolidate_tf_spec_witness :
    (consolidate_tf
        ⟨[(["d", "a.tf"], "X"), (["d", "b.json"], "Y")], [["d"]]⟩
        ["d"] ["main.tf"]).lookupFile ["main.tf"] =
      some ("\n// ===== file: a.tf =====\n" ++ "X") := by
  have h := (consolidate_tf_spec
    ⟨[(["d", "a.tf"], "X"), (["d", "b.json"], "Y")], [["d"]]⟩
    ["d"] ["main.tf"] (by decide)).2.2.1
  rw [h]
  have hfilter :
      ((([(["d", "a.tf"], "X"), (["d", "b.json"], "Y")] :
          List (FPath × String)).map Prod.fst).filter
        (fun p => decide (["d"] <+: p) && decide (p ≠ ["d"]) && isTfName p)) =
        [["d", "a.tf"]] := by decide
  rw [tfPaths, hfilter, List.mergeSort_singleton]
  decide

theorem lookupFile_terraformer_import_under (w : World) (rg : String)
    (dest : FPath) (lbl : String) (fs : FS) (hex : fs.existsPath dest = true)
    (hne : dest ≠ []) (p : FPath) (hp : dest <+: p) (hpd : p ≠ dest) :
    (terraformer_import w rg dest lbl fs).2.1.lookupFile p =
      (FS.empty.writeAll dest (w.terraformerFiles lbl)).lookupFile p := by
  have hlen : dest.length < p.length := length_lt_of_proper_prefix hp hpd
  have hloglen : ∀ x : String, (dest.dropLast ++ [x]).length = dest.length := by
    intro x
    have h0 : 0 < dest.length := List.length_pos.mpr hne
    simp [List.length_dropLast]
    omega
  have hlog : ∀ x : String, p ≠ dest.dropLast ++ [x] := by
    intro x he
    rw [he] at hlen
    rw [hloglen x] at hlen
    exact lt_irrefl _ hlen
  simp only [terraformer_import, hex, if_true]
  rw [lookupFile_writeText_ne _ _ _ _ (hlog _),
    lookupFile_writeText_ne _ _ _ _ (hlog _)]
  apply lookupFile_writeAll_congr
  rw [lookupFile_mkdirP, lookupFile_rmtree]
  simp [hp, FS.empty, FS.lookupFile, findVal]

/-- C4: for two consecutive generation attempts into the same destination,
the destination is reset before the tool runs, so afterwards the candidate
directory holds exactly those files the second attempt's tool wrote —
whatever the first attempt (or any prior filesystem content) left there. -/
theorem terraformer_import_reset (w1 w2 : World) (rg : String) (dest : FPath)
    (lbl : String) (fs : FS) (hne : dest ≠ []) (p : FPath)
    (hp : dest <+: p) (hpd : p ≠ dest) :
    ((terraformer_import w2 rg dest lbl
        (terraformer_import w1 rg dest lbl fs).2.1).2.1).lookupFile p =
      (FS.empty.writeAll dest (w2.terraformerFiles lbl)).lookupFile p ∧
    (((terraformer_import w2 rg dest lbl
        (terraformer_import w1 rg dest lbl fs).2.1).2.1).lookupFile p ≠ none ↔
      ∃ rel c, (rel, c) ∈ w2.terraformerFiles lbl ∧ p = dest ++ rel) := by
  have hex : (terraformer_import w1 rg dest lbl fs).2.1.existsPath dest = true :=
    existsPath_terraformer_import_dest w1 rg dest lbl fs
  have h1 := lookupFile_terraformer_import_under w2 rg dest lbl
    (terraformer_import w1 rg dest lbl fs).2.1 hex hne p hp hpd
  refine ⟨h1, ?_⟩
  rw [h1, lookupFile_writeAll_mem]
  have hempty : (FS.empty.lookupFile p ≠ none) ↔ False := by
    simp [FS.empty, FS.lookupFile, findVal]
  rw [hempty]
  simp

/-- Witness for C4: a second run whose tool writes `x.tf` leaves exactly
that file in the destination. -/
theorem terraformer_import_reset_witness :
    ((terraformer_import oneFileWorld "g" ["d"] "t"
        (terraformer_import oneFileWorld "g" ["d"] "t" FS.empty).2.1).2.1).lookupFile
      ["d", "x.tf"] = some "A" := by
  have h := terraformer_import_reset oneFileWorld oneFileWorld "g" ["d"] "t"
    FS.empty (by decide) ["d", "x.tf"] ⟨["x.tf"], rfl⟩ (by decide)
  rw [h.1]
  decide

/-- Counterexample to C3 as stated: with every tool succeeding except the
validation check, both strategies are attempted, yet the generation log
`tf_azurerm_out.log` is not inside `terraform_azurerm/` — it sits next to
it, in the resource-group folder. -/
theorem c3_counterexample :
    Event.terraformerRun "rg" "tf_azurerm" ∈
      (process_resource_group initFailWorld "rg" [] true FS.empty).2.2 ∧
    (process_resource_group initFailWorld "rg" [] true
        FS.empty).2.1.lookupFile
      ["rg", "terraform_azurerm", "tf_azurerm_out.log"] = none ∧
    (process_resource_group initFailWorld "rg" [] true
        FS.empty).2.1.lookupFile ["rg", "tf_azurerm_out.log"] =
      some "genout" := by
  decide

/-! ### Shape lemmas: the pipeline's result in each scenario -/

theorem dropLast_append_singleton (xs : FPath) (a : String) :
    (xs ++ [a]).dropLast = xs := by simp

theorem process_shape_export_fail (w : World) (rg : String)
    (subs_folder : FPath) (hasT : Bool) (fs : FS)
    (hexp : ¬ w.exportRes.code = 0) :
    process_resource_group w rg subs_folder hasT fs =
      (none, fs.mkdirP (subs_folder ++ [safe_name rg]), [Event.exportRun rg]) := by
  simp [process_resource_group, export_arm_template_eq_fail _ _ _ _ hexp]

theorem process_shape_noT (w : World) (rg : String) (subs_folder : FPath)
    (fs : FS) (hexp : w.exportRes.code = 0) :
    process_resource_group w rg subs_folder false fs =
      (none,
        (fs.mkdirP (subs_folder ++ [safe_name rg])).writeText
          (subs_folder ++ [safe_name rg] ++ ["template.json"]) w.exportRes.stdout,
        [Event.exportRun rg]) := by
  simp [process_resource_group, export_arm_template_eq_ok _ _ _ _ hexp]

theorem process_shape_s1 (w : World) (rg : String) (subs_folder : FPath)
    (fs : FS) (hexp : w.exportRes.code = 0)
    (hG1 : (w.terraformerRes "tf_azurerm").code = 0)
    (hV1 : (w.initRes "azurerm").code = 0) :
    process_resource_group w rg subs_folder true fs =
      (some (subs_folder ++ [safe_name rg] ++ ["terraform_azurerm"]),
        consolidate_tf
          (terraform_init_ok w
            (subs_folder ++ [safe_name rg] ++ ["terraform_azurerm"]) "azurerm"
            (terraformer_import w rg
              (subs_folder ++ [safe_name rg] ++ ["terraform_azurerm"])
              "tf_azurerm"
              ((fs.mkdirP (subs_folder ++ [safe_name rg])).writeText
                (subs_folder ++ [safe_name rg] ++ ["template.json"])
                w.exportRes.stdout)).2.1).2.1
          (subs_folder ++ [safe_name rg] ++ ["terraform_azurerm"])
          (subs_folder ++ [safe_name rg] ++ ["main.tf"]),
        [Event.exportRun rg, Event.terraformerRun rg "tf_azurerm",
          Event.initRun "azurerm"]) := by
  simp [process_resource_group, export_arm_template_eq_ok _ _ _ _ hexp,
    terraformer_import_fst, hG1, terraform_init_ok_fst_of_exists,
    existsPath_terraformer_import_dest, hV1, terraformer_import_evs,
    terraform_init_ok_evs_of_exists]

theorem process_shape_s2 (w : World) (rg : String) (subs_folder : FPath)
    (fs : FS) (hexp : w.exportRes.code = 0)
    (hG1 : (w.terraformerRes "tf_azurerm").code = 0)
    (hV1 : ¬ (w.initRes "azurerm").code = 0)
    (hG2 : (w.terraformerRes "tf_azapi").code = 0)
    (hV2 : (w.initRes "azapi").code = 0) :
    process_resource_group w rg subs_folder true fs =
      (some (subs_folder ++ [safe_name rg] ++ ["terraform_azapi"]),
        consolidate_tf
          (terraform_init_ok w
            (subs_folder ++ [safe_name rg] ++ ["terraform_azapi"]) "azapi"
            (terraformer_import w rg
              (subs_folder ++ [safe_name rg] ++ ["terraform_azapi"]) "tf_azapi"
              (terraform_init_ok w
                (subs_folder ++ [safe_name rg] ++ ["terraform_azurerm"])
                "azurerm"
                (terraformer_import w rg
                  (subs_folder ++ [safe_name rg] ++ ["terraform_azurerm"])
                  "tf_azurerm"
                  ((fs.mkdirP (subs_folder ++ [safe_name rg])).writeText
                    (subs_folder ++ [safe_name rg] ++ ["template.json"])
                    w.exportRes.stdout)).2.1).2.1).2.1).2.1
          (subs_folder ++ [safe_name rg] ++ ["terraform_azapi"])
          (subs_folder ++ [safe_name rg] ++ ["main.tf"]),
        [Event.exportRun rg, Event.terraformerRun rg "tf_azurerm",
          Event.initRun "azurerm", Event.terraformerRun rg "tf_azapi",
          Event.initRun "azapi"]) := by
  simp [process_resource_group, export_arm_template_eq_ok _ _ _ _ hexp,
    terraformer_import_fst, hG1, hG2, terraform_init_ok_fst_of_exists,
    existsPath_terraformer_import_dest, hV1, hV2, terraformer_import_evs,
    terraform_init_ok_evs_of_exists]

theorem process_shape_s3 (w : World) (rg : String) (subs_folder : FPath)
    (fs : FS) (hexp : w.exportRes.code = 0)
    (hG1 : (w.terraformerRes "tf_azurerm").code = 0)
    (hV1 : ¬ (w.initRes "azurerm").code = 0)
    (hG2 : (w.terraformerRes "tf_azapi").code = 0)
    (hV2 : ¬ (w.initRes "azapi").code = 0) :
    process_resource_group w rg subs_folder true fs =
      (none,
        (terraform_init_ok w
          (subs_folder ++ [safe_name rg] ++ ["terraform_azapi"]) "azapi"
          (terraformer_import w rg
            (subs_folder ++ [safe_name rg] ++ ["terraform_azapi"]) "tf_azapi"
            (terraform_init_ok w
              (subs_folder ++ [safe_name rg] ++ ["terraform_azurerm"])
              "azurerm"
              (terraformer_import w rg
                (subs_folder ++ [safe_name rg] ++ ["terraform_azurerm"])
                "tf_azurerm"
                ((fs.mkdirP (subs_folder ++ [safe_name rg])).writeText
                  (subs_folder ++ [safe_name rg] ++ ["template.json"])
                  w.exportRes.stdout)).2.1).2.1).2.1).2.1,
        [Event.exportRun rg, Event.terraformerRun rg "tf_azurerm",
          Event.initRun "azurerm", Event.terraformerRun rg "tf_azapi",
          Event.initRun "azapi"]) := by
  simp [process_resource_group, export_arm_template_eq_ok _ _ _ _ hexp,
    terraformer_import_fst, hG1, hG2, terraform_init_ok_fst_of_exists,
    existsPath_terraformer_import_dest, hV1, hV2, terraformer_import_evs,
    terraform_init_ok_evs_of_exists]

theorem process_shape_s4 (w : World) (rg : String) (subs_folder : FPath)
    (fs : FS) (hexp : w.exportRes.code = 0)
    (hG1 : (w.terraformerRes "tf_azurerm").code = 0)
    (hV1 : ¬ (w.initRes "azurerm").code = 0)
    (hG2 : ¬ (w.terraformerRes "tf_azapi").code = 0) :
    process_resource_group w rg subs_folder true fs =
      (none,
        (terraformer_import w rg
          (subs_folder ++ [safe_name rg] ++ ["terraform_azapi"]) "tf_azapi"
          (terraform_init_ok w
            (subs_folder ++ [safe_name rg] ++ ["terraform_azurerm"]) "azurerm"
            (terraformer_import w rg
              (subs_folder ++ [safe_name rg] ++ ["terraform_azurerm"])
              "tf_azurerm"
              ((fs.mkdirP (subs_folder ++ [safe_name rg])).writeText
                (subs_folder ++ [safe_name rg] ++ ["template.json"])
                w.exportRes.stdout)).2.1).2.1).2.1,
        [Event.exportRun rg, Event.terraformerRun rg "tf_azurerm",
          Event.initRun "azurerm", Event.terraformerRun rg "tf_azapi"]) := by
  simp [process_resource_group, export_arm_template_eq_ok _ _ _ _ hexp,
    terraformer_import_fst, hG1, hG2, terraform_init_ok_fst_of_exists,
    existsPath_terraformer_import_dest, hV1, terraformer_import_evs,
    terraform_init_ok_evs_of_exists]

theorem process_shape_s5 (w : World) (rg : String) (subs_folder : FPath)
    (fs : FS) (hexp : w.exportRes.code = 0)
    (hG1 : ¬ (w.terraformerRes "tf_azurerm").code = 0)
    (hG2 : (w.terraformerRes "tf_azapi").code = 0)
    (hV2 : (w.initRes "azapi").code = 0) :
    process_resource_group w rg subs_folder true fs =
      (some (subs_folder ++ [safe_name rg] ++ ["terraform_azapi"]),
        consolidate_tf
          (terraform_init_ok w
            (subs_folder ++ [safe_name rg] ++ ["terraform_azapi"]) "azapi"
            (terraformer_import w rg
              (subs_folder ++ [safe_name rg] ++ ["terraform_azapi"]) "tf_azapi"
              (terraformer_import w rg
                (subs_folder ++ [safe_name rg] ++ ["terraform_azurerm"])
                "tf_azurerm"
                ((fs.mkdirP (subs_folder ++ [safe_name rg])).writeText
                  (subs_folder ++ [safe_name rg] ++ ["template.json"])
                  w.exportRes.stdout)).2.1).2.1).2.1
          (subs_folder ++ [safe_name rg] ++ ["terraform_azapi"])
          (subs_folder ++ [safe_name rg] ++ ["main.tf"]),
        [Event.exportRun rg, Event.terraformerRun rg "tf_azurerm",
          Event.terraformerRun rg "tf_azapi", Event.initRun "azapi"]) := by
  simp [process_resource_group, export_arm_template_eq_ok _ _ _ _ hexp,
    terraformer_import_fst, hG1, hG2, terraform_init_ok_fst_of_exists,
    existsPath_terraformer_import_dest, hV2, terraformer_import_evs,
    terraform_init_ok_evs_of_exists]

theorem process_shape_s6 (w : World) (rg : String) (subs_folder : FPath)
    (fs : FS) (hexp : w.exportRes.code = 0)
    (hG1 : ¬ (w.terraformerRes "tf_azurerm").code = 0)
    (hG2 : (w.terraformerRes "tf_azapi").code = 0)
    (hV2 : ¬ (w.initRes "azapi").code = 0) :
    process_resource_group w rg subs_folder true fs =
      (none,
        (terraform_init_ok w
          (subs_folder ++ [safe_name rg] ++ ["terraform_azapi"]) "azapi"
          (terraformer_import w rg
            (subs_folder ++ [safe_name rg] ++ ["terraform_azapi"]) "tf_azapi"
            (terraformer_import w rg
              (subs_folder ++ [safe_name rg] ++ ["terraform_azurerm"])
              "tf_azurerm"
              ((fs.mkdirP (subs_folder ++ [safe_name rg])).writeText
                (subs_folder ++ [safe_name rg] ++ ["template.json"])
                w.exportRes.stdout)).2.1).2.1).2.1,
        [Event.exportRun rg, Event.terraformerRun rg "tf_azurerm",
          Event.terraformerRun rg "tf_azapi", Event.initRun "azapi"]) := by
  simp [process_resource_group, export_arm_template_eq_ok _ _ _ _ hexp,
    terraformer_import_fst, hG1, hG2, terraform_init_ok_fst_of_exists,
    existsPath_terraformer_import_dest, hV2, terraformer_import_evs,
    terraform_init_ok_evs_of_exists]

theorem process_shape_s7 (w : World) (rg : String) (subs_folder : FPath)
    (fs : FS) (hexp : w.exportRes.code = 0)
    (hG1 : ¬ (w.terraformerRes "tf_azurerm").code = 0)
    (hG2 : ¬ (w.terraformerRes "tf_azapi").code = 0) :
    process_resource_group w rg subs_folder true fs =
      (none,
        (terraformer_import w rg
          (subs_folder ++ [safe_name rg] ++ ["terraform_azapi"]) "tf_azapi"
          (terraformer_import w rg
            (subs_folder ++ [safe_name rg] ++ ["terraform_azurerm"])
            "tf_azurerm"
            ((fs.mkdirP (subs_folder ++ [safe_name rg])).writeText
              (subs_folder ++ [safe_name rg] ++ ["template.json"])
              w.exportRes.stdout)).2.1).2.1,
        [Event.exportRun rg, Event.terraformerRun rg "tf_azurerm",
          Event.terraformerRun rg "tf_azapi"]) := by
  simp [process_resource_group, export_arm_template_eq_ok _ _ _ _ hexp,
    terraformer_import_fst, hG1, hG2, terraformer_import_evs]

/-- C1: when the first strategy's generation and validation both succeed,
the pipeline chooses the first strategy's directory, the trace is exactly
export → generate(azurerm) → validate(azurerm), and the second strategy is
never attempted (no `tf_azapi` generation event, no `azapi` validation
event) — for every world, including ones where the second strategy would
also validate. -/
theorem first_success_wins (w : World) (rg : String) (subs_folder : FPath)
    (fs : FS) (hexp : w.exportRes.code = 0)
    (hG1 : (w.terraformerRes "tf_azurerm").code = 0)
    (hV1 : (w.initRes "azurerm").code = 0) :
    (process_resource_group w rg subs_folder true fs).1 =
      some (subs_folder ++ [safe_name rg] ++ ["terraform_azurerm"]) ∧
    (process_resource_group w rg subs_folder true fs).2.2 =
      [Event.exportRun rg, Event.terraformerRun rg "tf_azurerm",
        Event.initRun "azurerm"] ∧
    Event.terraformerRun rg "tf_azapi" ∉
      (process_resource_group w rg subs_folder true fs).2.2 ∧
    Event.initRun "azapi" ∉
      (process_resource_group w rg subs_folder true fs).2.2 := by
  rw [process_shape_s1 w rg subs_folder fs hexp hG1 hV1]
  refine ⟨rfl, rfl, ?_, ?_⟩ <;> simp

/-- Witness for C1 in a world where both strategies would succeed. -/
theorem first_success_wins_witness :
    (process_resource_group allOkWorld "g" [] true FS.empty).1 =
      some ([] ++ [safe_name "g"] ++ ["terraform_azurerm"]) ∧
    Event.terraformerRun "g" "tf_azapi" ∉
      (process_resource_group allOkWorld "g" [] true FS.empty).2.2 :=
  ⟨(first_success_wins allOkWorld "g" [] FS.empty rfl rfl rfl).1,
    (first_success_wins allOkWorld "g" [] FS.empty rfl rfl rfl).2.2.1⟩

theorem exportRun_mem_process (w : World) (rg : String) (subs_folder : FPath)
    (hasT : Bool) (fs : FS) :
    Event.exportRun rg ∈ (process_resource_group w rg subs_folder hasT fs).2.2 := by
  by_cases hexp : w.exportRes.code = 0
  · simp only [process_resource_group, export_arm_template_eq_ok _ _ _ _ hexp]
    simp
  · simp [process_shape_export_fail w rg subs_folder hasT fs hexp]

theorem exportRun_mem_processGroups (mw : MainWorld) (subs_folder : FPath)
    (hasT : Bool) (rgs : List String) (fs : FS) (g : String) (hg : g ∈ rgs) :
    Event.exportRun g ∈ (processGroups mw subs_folder hasT rgs fs).2 := by
  induction rgs generalizing fs with
  | nil => cases hg
  | cons r rest ih =>
    rcases List.mem_cons.mp hg with rfl | hg'
    · simp only [processGroups]
      exact List.mem_append.mpr (Or.inl (exportRun_mem_process _ g subs_folder hasT fs))
    · simp only [processGroups]
      exact List.mem_append.mpr (Or.inr (ih _ hg'))

/-- C6: if the export tool exits non-zero, `export_arm_template` returns
failure without writing the template file, the group's processing stops
right after the export (its whole trace is the one export invocation, and
the filesystem change is only the group folder creation), and the batch
loop still reaches every listed group's export. -/
theorem export_failure_skips (w : World) (rg : String) (out_path : FPath)
    (subs_folder : FPath) (hasT : Bool) (fs : FS) (mw : MainWorld)
    (rgs : List String) (g : String) (hexp : ¬ w.exportRes.code = 0) :
    export_arm_template w rg out_path fs = (false, fs, [Event.exportRun rg]) ∧
    process_resource_group w rg subs_folder hasT fs =
      (none, fs.mkdirP (subs_folder ++ [safe_name rg]),
        [Event.exportRun rg]) ∧
    (g ∈ rgs →
      Event.exportRun g ∈ (processGroups mw subs_folder hasT rgs fs).2) :=
  ⟨export_arm_template_eq_fail w rg out_path fs hexp,
    process_shape_export_fail w rg subs_folder hasT fs hexp,
    fun hg => exportRun_mem_processGroups mw subs_folder hasT rgs fs g hg⟩

/-- A world whose export tool fails. -/
def exportFailWorld : World :=
  ⟨⟨1, "", "boom"⟩, fun _ => ⟨0, "", ""⟩, fun _ => [], fun _ => ⟨0, "", ""⟩⟩

/-- A driver oracle whose single group's export fails. -/
def exportFailMainWorld : MainWorld :=
  ⟨some "i", some "s", some "t", 0, 0, 0, 0, 0, ["g"], true,
    fun _ => exportFailWorld⟩

/-- Witness for C6. -/
theorem export_failure_skips_witness :
    process_resource_group exportFailWorld "g" [] true FS.empty =
      (none, FS.empty.mkdirP ([] ++ [safe_name "g"]), [Event.exportRun "g"]) ∧
    Event.exportRun "g" ∈
      (processGroups exportFailMainWorld [] true ["g"] FS.empty).2 :=
  ⟨(export_failure_skips exportFailWorld "g" [] [] true FS.empty
      exportFailMainWorld ["g"] "g" (by decide)).2.1,
    (export_failure_skips exportFailWorld "g" [] [] true FS.empty
      exportFailMainWorld ["g"] "g" (by decide)).2.2 (by decide)⟩

theorem append_two_ne_one (xs : FPath) (a b c : String) :
    (xs ++ [a]) ++ [b] ≠ xs ++ [c] := by
  intro h
  have hl := congrArg List.length h
  simp [List.length_append] at hl

theorem not_prefix_append_singleton_append (xs : FPath) (a b : String)
    (t : FPath) (h : a ≠ b) : ¬ (xs ++ [a]) <+: ((xs ++ [b]) ++ t) := by
  rw [List.append_assoc]
  exact not_prefix_append_of_head_ne xs a b [] t h

theorem ti_frame_at (w : World) (rg : String) (xs : FPath) (a lbl : String)
    (fs : FS) (q : FPath) (h1 : ¬ (xs ++ [a]) <+: q)
    (h2 : q ≠ xs ++ [lbl ++ "_out.log"])
    (h3 : q ≠ xs ++ [lbl ++ "_err.log"]) :
    (terraformer_import w rg (xs ++ [a]) lbl fs).2.1.lookupFile q =
      fs.lookupFile q := by
  apply lookupFile_terraformer_import_frame w rg (xs ++ [a]) lbl fs q h1
  · rwa [dropLast_append_singleton]
  · rwa [dropLast_append_singleton]

theorem ti_outlog_at (w : World) (rg : String) (xs : FPath) (a lbl : String)
    (fs : FS) :
    (terraformer_import w rg (xs ++ [a]) lbl fs).2.1.lookupFile
      (xs ++ [lbl ++ "_out.log"]) = some (w.terraformerRes lbl).stdout := by
  have h := lookupFile_terraformer_import_outlog w rg (xs ++ [a]) lbl fs
  rwa [dropLast_append_singleton] at h

theorem ti_errlog_at (w : World) (rg : String) (xs : FPath) (a lbl : String)
    (fs : FS) :
    (terraformer_import w rg (xs ++ [a]) lbl fs).2.1.lookupFile
      (xs ++ [lbl ++ "_err.log"]) = some (w.terraformerRes lbl).stderr := by
  have h := lookupFile_terraformer_import_errlog w rg (xs ++ [a]) lbl fs
  rwa [dropLast_append_singleton] at h

/-- C3 (amended): for every attempted strategy the generation logs
`<label>_out.log` / `<label>_err.log` are written in the resource-group
folder — as siblings of the strategy's directory, not inside it — while
the validation logs `init_<label>_out.txt` / `init_<label>_err.txt` are
written inside the strategy's directory whenever validation runs (i.e.
when that strategy's generation succeeded). -/
theorem log_file_locations (w : World) (rg : String) (subs_folder : FPath)
    (fs : FS) (hexp : w.exportRes.code = 0) :
    (process_resource_group w rg subs_folder true fs).2.1.lookupFile
        (subs_folder ++ [safe_name rg] ++ ["tf_azurerm_out.log"]) =
      some (w.terraformerRes "tf_azurerm").stdout ∧
    (process_resource_group w rg subs_folder true fs).2.1.lookupFile
        (subs_folder ++ [safe_name rg] ++ ["tf_azurerm_err.log"]) =
      some (w.terraformerRes "tf_azurerm").stderr ∧
    ((w.terraformerRes "tf_azurerm").code = 0 →
      (process_resource_group w rg subs_folder true fs).2.1.lookupFile
          (subs_folder ++ [safe_name rg] ++ ["terraform_azurerm"] ++
            ["init_azurerm_out.txt"]) = some (w.initRes "azurerm").stdout ∧
      (process_resource_group w rg subs_folder true fs).2.1.lookupFile
          (subs_folder ++ [safe_name rg] ++ ["terraform_azurerm"] ++
            ["init_azurerm_err.txt"]) = some (w.initRes "azurerm").stderr) ∧
    (¬ ((w.terraformerRes "tf_azurerm").code = 0 ∧
        (w.initRes "azurerm").code = 0) →
      (process_resource_group w rg subs_folder true fs).2.1.lookupFile
          (subs_folder ++ [safe_name rg] ++ ["tf_azapi_out.log"]) =
        some (w.terraformerRes "tf_azapi").stdout ∧
      (process_resource_group w rg subs_folder true fs).2.1.lookupFile
          (subs_folder ++ [safe_name rg] ++ ["tf_azapi_err.log"]) =
        some (w.terraformerRes "tf_azapi").stderr ∧
      ((w.terraformerRes "tf_azapi").code = 0 →
        (process_resource_group w rg subs_folder true fs).2.1.lookupFile
            (subs_folder ++ [safe_name rg] ++ ["terraform_azapi"] ++
              ["init_azapi_out.txt"]) = some (w.initRes "azapi").stdout ∧
        (process_resource_group w rg subs_folder true fs).2.1.lookupFile
            (subs_folder ++ [safe_name rg] ++ ["terraform_azapi"] ++
              ["init_azapi_err.txt"]) = some (w.initRes "azapi").stderr)) := by
  by_cases hG1 : (w.terraformerRes "tf_azurerm").code = 0
  · by_cases hV1 : (w.initRes "azurerm").code = 0
    · rw [process_shape_s1 w rg subs_folder fs hexp hG1 hV1]
      refine ⟨?_, ?_, fun _ => ⟨?_, ?_⟩, fun hc => absurd ⟨hG1, hV1⟩ hc⟩
      · simp only [consolidate_tf]
        rw [lookupFile_writeText_ne _ _ _ _
            (append_singleton_ne _ "tf_azurerm_out.log" "main.tf" (by decide)),
          lookupFile_terraform_init_ok_frame _ _ _ _ _
            (not_prefix_append_of_head_ne _ "terraform_azurerm"
              "tf_azurerm_out.log" [] [] (by decide))]
        exact ti_outlog_at w rg _ "terraform_azurerm" "tf_azurerm" _
      · simp only [consolidate_tf]
        rw [lookupFile_writeText_ne _ _ _ _
            (append_singleton_ne _ "tf_azurerm_err.log" "main.tf" (by decide)),
          lookupFile_terraform_init_ok_frame _ _ _ _ _
            (not_prefix_append_of_head_ne _ "terraform_azurerm"
              "tf_azurerm_err.log" [] [] (by decide))]
        exact ti_errlog_at w rg _ "terraform_azurerm" "tf_azurerm" _
      · simp only [consolidate_tf]
        rw [lookupFile_writeText_ne _ _ _ _
            (append_two_ne_one _ "terraform_azurerm" "init_azurerm_out.txt"
              "main.tf")]
        exact terraform_init_ok_outlog w _ "azurerm" _
          (existsPath_terraformer_import_dest _ _ _ _ _)
      · simp only [consolidate_tf]
        rw [lookupFile_writeText_ne _ _ _ _
            (append_two_ne_one _ "terraform_azurerm" "init_azurerm_err.txt"
              "main.tf")]
        exact terraform_init_ok_errlog w _ "azurerm" _
          (existsPath_terraformer_import_dest _ _ _ _ _)
    · by_cases hG2 : (w.terraformerRes "tf_azapi").code = 0
      · by_cases hV2 : (w.initRes "azapi").code = 0
        · rw [process_shape_s2 w rg subs_folder fs hexp hG1 hV1 hG2 hV2]
          refine ⟨?_, ?_, fun _ => ⟨?_, ?_⟩,
            fun _ => ⟨?_, ?_, fun _ => ⟨?_, ?_⟩⟩⟩
          · simp only [consolidate_tf]
            rw [lookupFile_writeText_ne _ _ _ _
                (append_singleton_ne _ "tf_azurerm_out.log" "main.tf"
                  (by decide)),
              lookupFile_terraform_init_ok_frame _ _ _ _ _
                (not_prefix_append_of_head_ne _ "terraform_azapi"
                  "tf_azurerm_out.log" [] [] (by decide)),
              ti_frame_at w rg _ "terraform_azapi" "tf_azapi" _ _
                (not_prefix_append_of_head_ne _ "terraform_azapi"
                  "tf_azurerm_out.log" [] [] (by decide))
                (append_singleton_ne _ "tf_azurerm_out.log"
                  ("tf_azapi" ++ "_out.log") (by decide))
                (append_singleton_ne _ "tf_azurerm_out.log"
                  ("tf_azapi" ++ "_err.log") (by decide)),
              lookupFile_terraform_init_ok_frame _ _ _ _ _
                (not_prefix_append_of_head_ne _ "terraform_azurerm"
                  "tf_azurerm_out.log" [] [] (by decide))]
            exact ti_outlog_at w rg _ "terraform_azurerm" "tf_azurerm" _
          · simp only [consolidate_tf]
            rw [lookupFile_writeText_ne _ _ _ _
                (append_singleton_ne _ "tf_azurerm_err.log" "main.tf"
                  (by decide)),
              lookupFile_terraform_init_ok_frame _ _ _ _ _
                (not_prefix_append_of_head_ne _ "terraform_azapi"
                  "tf_azurerm_err.log" [] [] (by decide)),
              ti_frame_at w rg _ "terraform_azapi" "tf_azapi" _ _
                (not_prefix_append_of_head_ne _ "terraform_azapi"
                  "tf_azurerm_err.log" [] [] (by decide))
                (append_singleton_ne _ "tf_azurerm_err.log"
                  ("tf_azapi" ++ "_out.log") (by decide))
                (append_singleton_ne _ "tf_azurerm_err.log"
                  ("tf_azapi" ++ "_err.log") (by decide)),
              lookupFile_terraform_init_ok_frame _ _ _ _ _
                (not_prefix_append_of_head_ne _ "terraform_azurerm"
                  "tf_azurerm_err.log" [] [] (by decide))]
            exact ti_errlog_at w rg _ "terraform_azurerm" "tf_azurerm" _
          · simp only [consolidate_tf]
            rw [lookupFile_writeText_ne _ _ _ _
                (append_two_ne_one _ "terraform_azurerm"
                  "init_azurerm_out.txt" "main.tf"),
              lookupFile_terraform_init_ok_frame _ _ _ _ _
                (not_prefix_append_singleton_append _ "terraform_azapi"
                  "terraform_azurerm" _ (by decide)),
              ti_frame_at w rg _ "terraform_azapi" "tf_azapi" _ _
                (not_prefix_append_singleton_append _ "terraform_azapi"
                  "terraform_azurerm" _ (by decide))
                (append_two_ne_one _ "terraform_azurerm"
                  "init_azurerm_out.txt" ("tf_azapi" ++ "_out.log"))
                (append_two_ne_one _ "terraform_azurerm"
                  "init_azurerm_out.txt" ("tf_azapi" ++ "_err.log"))]
            exact terraform_init_ok_outlog w _ "azurerm" _
              (existsPath_terraformer_import_dest _ _ _ _ _)
          · simp only [consolidate_tf]
            rw [lookupFile_writeText_ne _ _ _ _
                (append_two_ne_one _ "terraform_azurerm"
                  "init_azurerm_err.txt" "main.tf"),
              lookupFile_terraform_init_ok_frame _ _ _ _ _
                (not_prefix_append_singleton_append _ "terraform_azapi"
                  "terraform_azurerm" _ (by decide)),
              ti_frame_at w rg _ "terraform_azapi" "tf_azapi" _ _
                (not_prefix_append_singleton_append _ "terraform_azapi"
                  "terraform_azurerm" _ (by decide))
                (append_two_ne_one _ "terraform_azurerm"
                  "init_azurerm_err.txt" ("tf_azapi" ++ "_out.log"))
                (append_two_ne_one _ "terraform_azurerm"
                  "init_azurerm_err.txt" ("tf_azapi" ++ "_err.log"))]
            exact terraform_init_ok_errlog w _ "azurerm" _
              (existsPath_terraformer_import_dest _ _ _ _ _)
          · simp only [consolidate_tf]
            rw [lookupFile_writeText_ne _ _ _ _
                (append_singleton_ne _ "tf_azapi_out.log" "main.tf"
                  (by decide)),
              lookupFile_terraform_init_ok_frame _ _ _ _ _
                (not_prefix_append_of_head_ne _ "terraform_azapi"
                  "tf_azapi_out.log" [] [] (by decide))]
            exact ti_outlog_at w rg _ "terraform_azapi" "tf_azapi" _
          · simp only [consolidate_tf]
            rw [lookupFile_writeText_ne _ _ _ _
                (append_singleton_ne _ "tf_azapi_err.log" "main.tf"
                  (by decide)),
              lookupFile_terraform_init_ok_frame _ _ _ _ _
                (not_prefix_append_of_head_ne _ "terraform_azapi"
                  "tf_azapi_err.log" [] [] (by decide))]
            exact ti_errlog_at w rg _ "terraform_azapi" "tf_azapi" _
          · simp only [consolidate_tf]
            rw [lookupFile_writeText_ne _ _ _ _
                (append_two_ne_one _ "terraform_azapi" "init_azapi_out.txt"
                  "main.tf")]
            exact terraform_init_ok_outlog w _ "azapi" _
              (existsPath_terraformer_import_dest _ _ _ _ _)
          · simp only [consolidate_tf]
            rw [lookupFile_writeText_ne _ _ _ _
                (append_two_ne_one _ "terraform_azapi" "init_azapi_err.txt"
                  "main.tf")]
            exact terraform_init_ok_errlog w _ "azapi" _
              (existsPath_terraformer_import_dest _ _ _ _ _)
        · rw [process_shape_s3 w rg subs_folder fs hexp hG1 hV1 hG2 hV2]
          refine ⟨?_, ?_, fun _ => ⟨?_, ?_⟩,
            fun _ => ⟨?_, ?_, fun _ => ⟨?_, ?_⟩⟩⟩
          · rw [lookupFile_terraform_init_ok_frame _ _ _ _ _
                (not_prefix_append_of_head_ne _ "terraform_azapi"
                  "tf_azurerm_out.log" [] [] (by decide)),
              ti_frame_at w rg _ "terraform_azapi" "tf_azapi" _ _
                (not_prefix_append_of_head_ne _ "terraform_azapi"
                  "tf_azurerm_out.log" [] [] (by decide))
                (append_singleton_ne _ "tf_azurerm_out.log"
                  ("tf_azapi" ++ "_out.log") (by decide))
                (append_singleton_ne _ "tf_azurerm_out.log"
                  ("tf_azapi" ++ "_err.log") (by decide)),
              lookupFile_terraform_init_ok_frame _ _ _ _ _
                (not_prefix_append_of_head_ne _ "terraform_azurerm"
                  "tf_azurerm_out.log" [] [] (by decide))]
            exact ti_outlog_at w rg _ "terraform_azurerm" "tf_azurerm" _
          · rw [lookupFile_terraform_init_ok_frame _ _ _ _ _
                (not_prefix_append_of_head_ne _ "terraform_azapi"
                  "tf_azurerm_err.log" [] [] (by decide)),
              ti_frame_at w rg _ "terraform_azapi" "tf_azapi" _ _
                (not_prefix_append_of_head_ne _ "terraform_azapi"
                  "tf_azurerm_err.log" [] [] (by decide))
                (append_singleton_ne _ "tf_azurerm_err.log"
                  ("tf_azapi" ++ "_out.log") (by decide))
                (append_singleton_ne _ "tf_azurerm_err.log"
                  ("tf_azapi" ++ "_err.log") (by decide)),
              lookupFile_terraform_init_ok_frame _ _ _ _ _
                (not_prefix_append_of_head_ne _ "terraform_azurerm"
                  "tf_azurerm_err.log" [] [] (by decide))]
            exact ti_errlog_at w rg _ "terraform_azurerm" "tf_azurerm" _
          · rw [lookupFile_terraform_init_ok_frame _ _ _ _ _
                (not_prefix_append_singleton_append _ "terraform_azapi"
                  "terraform_azurerm" _ (by decide)),
              ti_frame_at w rg _ "terraform_azapi" "tf_azapi" _ _
                (not_prefix_append_singleton_append _ "terraform_azapi"
                  "terraform_azurerm" _ (by decide))
                (append_two_ne_one _ "terraform_azurerm"
                  "init_azurerm_out.txt" ("tf_azapi" ++ "_out.log"))
                (append_two_ne_one _ "terraform_azurerm"
                  "init_azurerm_out.txt" ("tf_azapi" ++ "_err.log"))]
            exact terraform_init_ok_outlog w _ "azurerm" _
              (existsPath_terraformer_import_dest _ _ _ _ _)
          · rw [lookupFile_terraform_init_ok_frame _ _ _ _ _
                (not_prefix_append_singleton_append _ "terraform_azapi"
                  "terraform_azurerm" _ (by decide)),
              ti_frame_at w rg _ "terraform_azapi" "tf_azapi" _ _
                (not_prefix_append_singleton_append _ "terraform_azapi"
                  "terraform_azurerm" _ (by decide))
                (append_two_ne_one _ "terraform_azurerm"
                  "init_azurerm_err.txt" ("tf_azapi" ++ "_out.log"))
                (append_two_ne_one _ "terraform_azurerm"
                  "init_azurerm_err.txt" ("tf_azapi" ++ "_err.log"))]
            exact terraform_init_ok_errlog w _ "azurerm" _
              (existsPath_terraformer_import_dest _ _ _ _ _)
          · rw [lookupFile_terraform_init_ok_frame _ _ _ _ _
                (not_prefix_append_of_head_ne _ "terraform_azapi"
                  "tf_azapi_out.log" [] [] (by decide))]
            exact ti_outlog_at w rg _ "terraform_azapi" "tf_azapi" _
          · rw [lookupFile_terraform_init_ok_frame _ _ _ _ _
                (not_prefix_append_of_head_ne _ "terraform_azapi"
                  "tf_azapi_err.log" [] [] (by decide))]
            exact ti_errlog_at w rg _ "terraform_azapi" "tf_azapi" _
          · exact terraform_init_ok_outlog w _ "azapi" _
              (existsPath_terraformer_import_dest _ _ _ _ _)
          · exact terraform_init_ok_errlog w _ "azapi" _
              (existsPath_terraformer_import_dest _ _ _ _ _)
      · rw [process_shape_s4 w rg subs_folder fs hexp hG1 hV1 hG2]
        refine ⟨?_, ?_, fun _ => ⟨?_, ?_⟩,
          fun _ => ⟨?_, ?_, fun hc => absurd hc hG2⟩⟩
        · rw [ti_frame_at w rg _ "terraform_azapi" "tf_azapi" _ _
              (not_prefix_append_of_head_ne _ "terraform_azapi"
                "tf_azurerm_out.log" [] [] (by decide))
              (append_singleton_ne _ "tf_azurerm_out.log"
                ("tf_azapi" ++ "_out.log") (by decide))
              (append_singleton_ne _ "tf_azurerm_out.log"
                ("tf_azapi" ++ "_err.log") (by decide)),
            lookupFile_terraform_init_ok_frame _ _ _ _ _
              (not_prefix_append_of_head_ne _ "terraform_azurerm"
                "tf_azurerm_out.log" [] [] (by decide))]
          exact ti_outlog_at w rg _ "terraform_azurerm" "tf_azurerm" _
        · rw [ti_frame_at w rg _ "terraform_azapi" "tf_azapi" _ _
              (not_prefix_append_of_head_ne _ "terraform_azapi"
                "tf_azurerm_err.log" [] [] (by decide))
              (append_singleton_ne _ "tf_azurerm_err.log"
                ("tf_azapi" ++ "_out.log") (by decide))
              (append_singleton_ne _ "tf_azurerm_err.log"
                ("tf_azapi" ++ "_err.log") (by decide)),
            lookupFile_terraform_init_ok_frame _ _ _ _ _
              (not_prefix_append_of_head_ne _ "terraform_azurerm"
                "tf_azurerm_err.log" [] [] (by decide))]
          exact ti_errlog_at w rg _ "terraform_azurerm" "tf_azurerm" _
        · rw [ti_frame_at w rg _ "terraform_azapi" "tf_azapi" _ _
              (not_prefix_append_singleton_append _ "terraform_azapi"
                "terraform_azurerm" _ (by decide))
              (append_two_ne_one _ "terraform_azurerm"
                "init_azurerm_out.txt" ("tf_azapi" ++ "_out.log"))
              (append_two_ne_one _ "terraform_azurerm"
                "init_azurerm_out.txt" ("tf_azapi" ++ "_err.log"))]
          exact terraform_init_ok_outlog w _ "azurerm" _
            (existsPath_terraformer_import_dest _ _ _ _ _)
        · rw [ti_frame_at w rg _ "terraform_azapi" "tf_azapi" _ _
              (not_prefix_append_singleton_append _ "terraform_azapi"
                "terraform_azurerm" _ (by decide))
              (append_two_ne_one _ "terraform_azurerm"
                "init_azurerm_err.txt" ("tf_azapi" ++ "_out.log"))
              (append_two_ne_one _ "terraform_azurerm"
                "init_azurerm_err.txt" ("tf_azapi" ++ "_err.log"))]
          exact terraform_init_ok_errlog w _ "azurerm" _
            (existsPath_terraformer_import_dest _ _ _ _ _)
        · exact ti_outlog_at w rg _ "terraform_azapi" "tf_azapi" _
        · exact ti_errlog_at w rg _ "terraform_azapi" "tf_azapi" _
  · by_cases hG2 : (w.terraformerRes "tf_azapi").code = 0
    · by_cases hV2 : (w.initRes "azapi").code = 0
      · rw [process_shape_s5 w rg subs_folder fs hexp hG1 hG2 hV2]
        refine ⟨?_, ?_, fun hc => absurd hc hG1,
          fun _ => ⟨?_, ?_, fun _ => ⟨?_, ?_⟩⟩⟩
        · simp only [consolidate_tf]
          rw [lookupFile_writeText_ne _ _ _ _
              (append_singleton_ne _ "tf_azurerm_out.log" "main.tf"
                (by decide)),
            lookupFile_terraform_init_ok_frame _ _ _ _ _
              (not_prefix_append_of_head_ne _ "terraform_azapi"
                "tf_azurerm_out.log" [] [] (by decide)),
            ti_frame_at w rg _ "terraform_azapi" "tf_azapi" _ _
              (not_prefix_append_of_head_ne _ "terraform_azapi"
                "tf_azurerm_out.log" [] [] (by decide))
              (append_singleton_ne _ "tf_azurerm_out.log"
                ("tf_azapi" ++ "_out.log") (by decide))
              (append_singleton_ne _ "tf_azurerm_out.log"
                ("tf_azapi" ++ "_err.log") (by decide))]
          exact ti_outlog_at w rg _ "terraform_azurerm" "tf_azurerm" _
        · simp only [consolidate_tf]
          rw [lookupFile_writeText_ne _ _ _ _
              (append_singleton_ne _ "tf_azurerm_err.log" "main.tf"
                (by decide)),
            lookupFile_terraform_init_ok_frame _ _ _ _ _
              (not_prefix_append_of_head_ne _ "terraform_azapi"
                "tf_azurerm_err.log" [] [] (by decide)),
            ti_frame_at w rg _ "terraform_azapi" "tf_azapi" _ _
              (not_prefix_append_of_head_ne _ "terraform_azapi"
                "tf_azurerm_err.log" [] [] (by decide))
              (append_singleton_ne _ "tf_azurerm_err.log"
                ("tf_azapi" ++ "_out.log") (by decide))
              (append_singleton_ne _ "tf_azurerm_err.log"
                ("tf_azapi" ++ "_err.log") (by decide))]
          exact ti_errlog_at w rg _ "terraform_azurerm" "tf_azurerm" _
        · simp only [consolidate_tf]
          rw [lookupFile_writeText_ne _ _ _ _
              (append_singleton_ne _ "tf_azapi_out.log" "main.tf"
                (by decide)),
            lookupFile_terraform_init_ok_frame _ _ _ _ _
              (not_prefix_append_of_head_ne _ "terraform_azapi"
                "tf_azapi_out.log" [] [] (by decide))]
          exact ti_outlog_at w rg _ "terraform_azapi" "tf_azapi" _
        · simp only [consolidate_tf]
          rw [lookupFile_writeText_ne _ _ _ _
              (append_singleton_ne _ "tf_azapi_err.log" "main.tf"
                (by decide)),
            lookupFile_terraform_init_ok_frame _ _ _ _ _
              (not_prefix_append_of_head_ne _ "terraform_azapi"
                "tf_azapi_err.log" [] [] (by decide))]
          exact ti_errlog_at w rg _ "terraform_azapi" "tf_azapi" _
        · simp only [consolidate_tf]
          rw [lookupFile_writeText_ne _ _ _ _
              (append_two_ne_one _ "terraform_azapi" "init_azapi_out.txt"
                "main.tf")]
          exact terraform_init_ok_outlog w _ "azapi" _
            (existsPath_terraformer_import_dest _ _ _ _ _)
        · simp only [consolidate_tf]
          rw [lookupFile_writeText_ne _ _ _ _
              (append_two_ne_one _ "terraform_azapi" "init_azapi_err.txt"
                "main.tf")]
          exact terraform_init_ok_errlog w _ "azapi" _
            (existsPath_terraformer_import_dest _ _ _ _ _)
      · rw [process_shape_s6 w rg subs_folder fs hexp hG1 hG2 hV2]
        refine ⟨?_, ?_, fun hc => absurd hc hG1,
          fun _ => ⟨?_, ?_, fun _ => ⟨?_, ?_⟩⟩⟩
        · rw [lookupFile_terraform_init_ok_frame _ _ _ _ _
              (not_prefix_append_of_head_ne _ "terraform_azapi"
                "tf_azurerm_out.log" [] [] (by decide)),
            ti_frame_at w rg _ "terraform_azapi" "tf_azapi" _ _
              (not_prefix_append_of_head_ne _ "terraform_azapi"
                "tf_azurerm_out.log" [] [] (by decide))
              (append_singleton_ne _ "tf_azurerm_out.log"
                ("tf_azapi" ++ "_out.log") (by decide))
              (append_singleton_ne _ "tf_azurerm_out.log"
                ("tf_azapi" ++ "_err.log") (by decide))]
          exact ti_outlog_at w rg _ "terraform_azurerm" "tf_azurerm" _
        · rw [lookupFile_terraform_init_ok_frame _ _ _ _ _
              (not_prefix_append_of_head_ne _ "terraform_azapi"
                "tf_azurerm_err.log" [] [] (by decide)),
            ti_frame_at w rg _ "terraform_azapi" "tf_azapi" _ _
              (not_prefix_append_of_head_ne _ "terraform_azapi"
                "tf_azurerm_err.log" [] [] (by decide))
              (append_singleton_ne _ "tf_azurerm_err.log"
                ("tf_azapi" ++ "_out.log") (by decide))
              (append_singleton_ne _ "tf_azurerm_err.log"
                ("tf_azapi" ++ "_err.log") (by decide))]
          exact ti_errlog_at w rg _ "terraform_azurerm" "tf_azurerm" _
        · rw [lookupFile_terraform_init_ok_frame _ _ _ _ _
              (not_prefix_append_of_head_ne _ "terraform_azapi"
                "tf_azapi_out.log" [] [] (by decide))]
          exact ti_outlog_at w rg _ "terraform_azapi" "tf_azapi" _
        · rw [lookupFile_terraform_init_ok_frame _ _ _ _ _
              (not_prefix_append_of_head_ne _ "terraform_azapi"
                "tf_azapi_err.log" [] [] (by decide))]
          exact ti_errlog_at w rg _ "terraform_azapi" "tf_azapi" _
        · exact terraform_init_ok_outlog w _ "azapi" _
            (existsPath_terraformer_import_dest _ _ _ _ _)
        · exact terraform_init_ok_errlog w _ "azapi" _
            (existsPath_terraformer_import_dest _ _ _ _ _)
    · rw [process_shape_s7 w rg subs_folder fs hexp hG1 hG2]
      refine ⟨?_, ?_, fun hc => absurd hc hG1,
        fun _ => ⟨?_, ?_, fun hc => absurd hc hG2⟩⟩
      · rw [ti_frame_at w rg _ "terraform_azapi" "tf_azapi" _ _
            (not_prefix_append_of_head_ne _ "terraform_azapi"
              "tf_azurerm_out.log" [] [] (by decide))
            (append_singleton_ne _ "tf_azurerm_out.log"
              ("tf_azapi" ++ "_out.log") (by decide))
            (append_singleton_ne _ "tf_azurerm_out.log"
              ("tf_azapi" ++ "_err.log") (by decide))]
        exact ti_outlog_at w rg _ "terraform_azurerm" "tf_azurerm" _
      · rw [ti_frame_at w rg _ "terraform_azapi" "tf_azapi" _ _
            (not_prefix_append_of_head_ne _ "terraform_azapi"
              "tf_azurerm_err.log" [] [] (by decide))
            (append_singleton_ne _ "tf_azurerm_err.log"
              ("tf_azapi" ++ "_out.log") (by decide))
            (append_singleton_ne _ "tf_azurerm_err.log"
              ("tf_azapi" ++ "_err.log") (by decide))]
        exact ti_errlog_at w rg _ "terraform_azurerm" "tf_azurerm" _
      · exact ti_outlog_at w rg _ "terraform_azapi" "tf_azapi" _
      · exact ti_errlog_at w rg _ "terraform_azapi" "tf_azapi" _

/-- Witness for the amended C3, in a world where both strategies are
attempted (validation fails): the generation log is in the group folder
and the validation log inside the strategy directory. -/
theorem log_file_locations_witness :
    (process_resource_group initFailWorld "rg" [] true
        FS.empty).2.1.lookupFile
      ([] ++ [safe_name "rg"] ++ ["tf_azurerm_out.log"]) = some "genout" ∧
    (process_resource_group initFailWorld "rg" [] true
        FS.empty).2.1.lookupFile
      ([] ++ [safe_name "rg"] ++ ["terraform_azurerm"] ++
        ["init_azurerm_out.txt"]) = some "initout" := by
  have h := log_file_locations initFailWorld "rg" [] FS.empty rfl
  exact ⟨h.1, (h.2.2.1 rfl).1⟩

theorem append_singleton_ne_self (xs : FPath) (a : String) :
    xs ++ [a] ≠ xs := by
  intro h
  have hl := congrArg List.length h
  simp [List.length_append] at hl

/-- C2: outcome trichotomy.  For every world and resource group (starting
from a filesystem with nothing under the group's folder), exactly one of
three outcomes holds, according to the mutually exclusive, exhaustive
guards (export failed / a candidate was chosen / export succeeded but none
chosen): (a) export failed — nothing was chosen and no artifact of any
kind exists under the group folder; (b) a candidate was chosen — it is
exactly one of the two strategy directories, that strategy's validation
exit status was zero, and `main.tf` holds precisely that directory's
consolidation; (c) export succeeded but no candidate validated — the raw
`template.json` exists and `main.tf` does not. -/
theorem process_outcome_trichotomy (w : World) (rg : String)
    (subs_folder : FPath) (hasT : Bool) (fs : FS)
    (hclean : ∀ p, subs_folder ++ [safe_name rg] <+: p →
      p ≠ subs_folder ++ [safe_name rg] →
      fs.lookupFile p = none ∧ p ∉ fs.dirs) :
    ((¬ w.exportRes.code = 0 ∧
        (process_resource_group w rg subs_folder hasT fs).1 = none) ∨
     (w.exportRes.code = 0 ∧
        ∃ d, (process_resource_group w rg subs_folder hasT fs).1 = some d) ∨
     (w.exportRes.code = 0 ∧
        (process_resource_group w rg subs_folder hasT fs).1 = none)) ∧
    (¬ w.exportRes.code = 0 →
      (process_resource_group w rg subs_folder hasT fs).1 = none ∧
      (∀ p, subs_folder ++ [safe_name rg] <+: p →
        p ≠ subs_folder ++ [safe_name rg] →
        (process_resource_group w rg subs_folder hasT fs).2.1.lookupFile p =
          none ∧
        p ∉ (process_resource_group w rg subs_folder hasT fs).2.1.dirs)) ∧
    (∀ d, (process_resource_group w rg subs_folder hasT fs).1 = some d →
      w.exportRes.code = 0 ∧
      ((d = subs_folder ++ [safe_name rg] ++ ["terraform_azurerm"] ∧
          (w.initRes "azurerm").code = 0) ∨
       (d = subs_folder ++ [safe_name rg] ++ ["terraform_azapi"] ∧
          (w.initRes "azapi").code = 0)) ∧
      (process_resource_group w rg subs_folder hasT fs).2.1.lookupFile
          (subs_folder ++ [safe_name rg] ++ ["main.tf"]) =
        some (consolidatedText
          (process_resource_group w rg subs_folder hasT fs).2.1 d)) ∧
    (w.exportRes.code = 0 →
      (process_resource_group w rg subs_folder hasT fs).1 = none →
      (process_resource_group w rg subs_folder hasT fs).2.1.lookupFile
          (subs_folder ++ [safe_name rg] ++ ["template.json"]) =
        some w.exportRes.stdout ∧
      (process_resource_group w rg subs_folder hasT fs).2.1.lookupFile
          (subs_folder ++ [safe_name rg] ++ ["main.tf"]) = none) := by
  by_cases hexp : w.exportRes.code = 0
  · cases hasT with
    | false =>
      rw [process_shape_noT w rg subs_folder fs hexp]
      refine ⟨Or.inr (Or.inr ⟨hexp, rfl⟩), fun h => absurd hexp h,
        fun d hd => Option.noConfusion hd, fun _ _ => ⟨?_, ?_⟩⟩
      · exact lookupFile_writeText_self _ _ _
      · rw [lookupFile_writeText_ne _ _ _ _
            (append_singleton_ne _ "main.tf" "template.json" (by decide)),
          lookupFile_mkdirP]
        exact (hclean _ (List.prefix_append _ _)
          (append_singleton_ne_self _ "main.tf")).1
    | true =>
      by_cases hG1 : (w.terraformerRes "tf_azurerm").code = 0
      · by_cases hV1 : (w.initRes "azurerm").code = 0
        · rw [process_shape_s1 w rg subs_folder fs hexp hG1 hV1]
          refine ⟨Or.inr (Or.inl ⟨hexp, _, rfl⟩), fun h => absurd hexp h,
            fun d hd => ?_, fun _ hn => Option.noConfusion hn⟩
          obtain rfl := Option.some.inj hd
          refine ⟨hexp, Or.inl ⟨rfl, hV1⟩, ?_⟩
          simp only [consolidate_tf]
          rw [consolidatedText_writeText_not_under _ _ _ _
              (not_prefix_append_of_head_ne _ "terraform_azurerm" "main.tf"
                [] [] (by decide)),
            lookupFile_writeText_self]
        · by_cases hG2 : (w.terraformerRes "tf_azapi").code = 0
          · by_cases hV2 : (w.initRes "azapi").code = 0
            · rw [process_shape_s2 w rg subs_folder fs hexp hG1 hV1 hG2 hV2]
              refine ⟨Or.inr (Or.inl ⟨hexp, _, rfl⟩), fun h => absurd hexp h,
                fun d hd => ?_, fun _ hn => Option.noConfusion hn⟩
              obtain rfl := Option.some.inj hd
              refine ⟨hexp, Or.inr ⟨rfl, hV2⟩, ?_⟩
              simp only [consolidate_tf]
              rw [consolidatedText_writeText_not_under _ _ _ _
                  (not_prefix_append_of_head_ne _ "terraform_azapi" "main.tf"
                    [] [] (by decide)),
                lookupFile_writeText_self]
            · rw [process_shape_s3 w rg subs_folder fs hexp hG1 hV1 hG2 hV2]
              refine ⟨Or.inr (Or.inr ⟨hexp, rfl⟩), fun h => absurd hexp h,
                fun d hd => Option.noConfusion hd, fun _ _ => ⟨?_, ?_⟩⟩
              · rw [lookupFile_terraform_init_ok_frame _ _ _ _ _
                    (not_prefix_append_of_head_ne _ "terraform_azapi"
                      "template.json" [] [] (by decide)),
                  ti_frame_at w rg _ "terraform_azapi" "tf_azapi" _ _
                    (not_prefix_append_of_head_ne _ "terraform_azapi"
                      "template.json" [] [] (by decide))
                    (append_singleton_ne _ "template.json"
                      ("tf_azapi" ++ "_out.log") (by decide))
                    (append_singleton_ne _ "template.json"
                      ("tf_azapi" ++ "_err.log") (by decide)),
                  lookupFile_terraform_init_ok_frame _ _ _ _ _
                    (not_prefix_append_of_head_ne _ "terraform_azurerm"
                      "template.json" [] [] (by decide)),
                  ti_frame_at w rg _ "terraform_azurerm" "tf_azurerm" _ _
                    (not_prefix_append_of_head_ne _ "terraform_azurerm"
                      "template.json" [] [] (by decide))
                    (append_singleton_ne _ "template.json"
                      ("tf_azurerm" ++ "_out.log") (by decide))
                    (append_singleton_ne _ "template.json"
                      ("tf_azurerm" ++ "_err.log") (by decide))]
                exact lookupFile_writeText_self _ _ _
              · rw [lookupFile_terraform_init_ok_frame _ _ _ _ _
                    (not_prefix_append_of_head_ne _ "terraform_azapi"
                      "main.tf" [] [] (by decide)),
                  ti_frame_at w rg _ "terraform_azapi" "tf_azapi" _ _
                    (not_prefix_append_of_head_ne _ "terraform_azapi"
                      "main.tf" [] [] (by decide))
                    (append_singleton_ne _ "main.tf"
                      ("tf_azapi" ++ "_out.log") (by decide))
                    (append_singleton_ne _ "main.tf"
                      ("tf_azapi" ++ "_err.log") (by decide)),
                  lookupFile_terraform_init_ok_frame _ _ _ _ _
                    (not_prefix_append_of_head_ne _ "terraform_azurerm"
                      "main.tf" [] [] (by decide)),
                  ti_frame_at w rg _ "terraform_azurerm" "tf_azurerm" _ _
                    (not_prefix_append_of_head_ne _ "terraform_azurerm"
                      "main.tf" [] [] (by decide))
                    (append_singleton_ne _ "main.tf"
                      ("tf_azurerm" ++ "_out.log") (by decide))
                    (append_singleton_ne _ "main.tf"
                      ("tf_azurerm" ++ "_err.log") (by decide)),
                  lookupFile_writeText_ne _ _ _ _
                    (append_singleton_ne _ "main.tf" "template.json"
                      (by decide)),
                  lookupFile_mkdirP]
                exact (hclean _ (List.prefix_append _ _)
                  (append_singleton_ne_self _ "main.tf")).1
          · rw [process_shape_s4 w rg subs_folder fs hexp hG1 hV1 hG2]
            refine ⟨Or.inr (Or.inr ⟨hexp, rfl⟩), fun h => absurd hexp h,
              fun d hd => Option.noConfusion hd, fun _ _ => ⟨?_, ?_⟩⟩
            · rw [ti_frame_at w rg _ "terraform_azapi" "tf_azapi" _ _
                  (not_prefix_append_of_head_ne _ "terraform_azapi"
                    "template.json" [] [] (by decide))
                  (append_singleton_ne _ "template.json"
                    ("tf_azapi" ++ "_out.log") (by decide))
                  (append_singleton_ne _ "template.json"
                    ("tf_azapi" ++ "_err.log") (by decide)),
                lookupFile_terraform_init_ok_frame _ _ _ _ _
                  (not_prefix_append_of_head_ne _ "terraform_azurerm"
                    "template.json" [] [] (by decide)),
                ti_frame_at w rg _ "terraform_azurerm" "tf_azurerm" _ _
                  (not_prefix_append_of_head_ne _ "terraform_azurerm"
                    "template.json" [] [] (by decide))
                  (append_singleton_ne _ "template.json"
                    ("tf_azurerm" ++ "_out.log") (by decide))
                  (append_singleton_ne _ "template.json"
                    ("tf_azurerm" ++ "_err.log") (by decide))]
              exact lookupFile_writeText_self _ _ _
            · rw [ti_frame_at w rg _ "terraform_azapi" "tf_azapi" _ _
                  (not_prefix_append_of_head_ne _ "terraform_azapi"
                    "main.tf" [] [] (by decide))
                  (append_singleton_ne _ "main.tf"
                    ("tf_azapi" ++ "_out.log") (by decide))
                  (append_singleton_ne _ "main.tf"
                    ("tf_azapi" ++ "_err.log") (by decide)),
                lookupFile_terraform_init_ok_frame _ _ _ _ _
                  (not_prefix_append_of_head_ne _ "terraform_azurerm"
                    "main.tf" [] [] (by decide)),
                ti_frame_at w rg _ "terraform_azurerm" "tf_azurerm" _ _
                  (not_prefix_append_of_head_ne _ "terraform_azurerm"
                    "main.tf" [] [] (by decide))
                  (append_singleton_ne _ "main.tf"
                    ("tf_azurerm" ++ "_out.log") (by decide))
                  (append_singleton_ne _ "main.tf"
                    ("tf_azurerm" ++ "_err.log") (by decide)),
                lookupFile_writeText_ne _ _ _ _
                  (append_singleton_ne _ "main.tf" "template.json"
                    (by decide)),
                lookupFile_mkdirP]
              exact (hclean _ (List.prefix_append _ _)
                (append_singleton_ne_self _ "main.tf")).1
      · by_cases hG2 : (w.terraformerRes "tf_azapi").code = 0
        · by_cases hV2 : (w.initRes "azapi").code = 0
          · rw [process_shape_s5 w rg subs_folder fs hexp hG1 hG2 hV2]
            refine ⟨Or.inr (Or.inl ⟨hexp, _, rfl⟩), fun h => absurd hexp h,
              fun d hd => ?_, fun _ hn => Option.noConfusion hn⟩
            obtain rfl := Option.some.inj hd
            refine ⟨hexp, Or.inr ⟨rfl, hV2⟩, ?_⟩
            simp only [consolidate_tf]
            rw [consolidatedText_writeText_not_under _ _ _ _
                (not_prefix_append_of_head_ne _ "terraform_azapi" "main.tf"
                  [] [] (by decide)),
              lookupFile_writeText_self]
          · rw [process_shape_s6 w rg subs_folder fs hexp hG1 hG2 hV2]
            refine ⟨Or.inr (Or.inr ⟨hexp, rfl⟩), fun h => absurd hexp h,
              fun d hd => Option.noConfusion hd, fun _ _ => ⟨?_, ?_⟩⟩
            · rw [lookupFile_terraform_init_ok_frame _ _ _ _ _
                  (not_prefix_append_of_head_ne _ "terraform_azapi"
                    "template.json" [] [] (by decide)),
                ti_frame_at w rg _ "terraform_azapi" "tf_azapi" _ _
                  (not_prefix_append_of_head_ne _ "terraform_azapi"
                    "template.json" [] [] (by decide))
                  (append_singleton_ne _ "template.json"
                    ("tf_azapi" ++ "_out.log") (by decide))
                  (append_singleton_ne _ "template.json"
                    ("tf_azapi" ++ "_err.log") (by decide)),
                ti_frame_at w rg _ "terraform_azurerm" "tf_azurerm" _ _
                  (not_prefix_append_of_head_ne _ "terraform_azurerm"
                    "template.json" [] [] (by decide))
                  (append_singleton_ne _ "template.json"
                    ("tf_azurerm" ++ "_out.log") (by decide))
                  (append_singleton_ne _ "template.json"
                    ("tf_azurerm" ++ "_err.log") (by decide))]
              exact lookupFile_writeText_self _ _ _
            · rw [lookupFile_terraform_init_ok_frame _ _ _ _ _
                  (not_prefix_append_of_head_ne _ "terraform_azapi"
                    "main.tf" [] [] (by decide)),
                ti_frame_at w rg _ "terraform_azapi" "tf_azapi" _ _
                  (not_prefix_append_of_head_ne _ "terraform_azapi"
                    "main.tf" [] [] (by decide))
                  (append_singleton_ne _ "main.tf"
                    ("tf_azapi" ++ "_out.log") (by decide))
                  (append_singleton_ne _ "main.tf"
                    ("tf_azapi" ++ "_err.log") (by decide)),
                ti_frame_at w rg _ "terraform_azurerm" "tf_azurerm" _ _
                  (not_prefix_append_of_head_ne _ "terraform_azurerm"
                    "main.tf" [] [] (by decide))
                  (append_singleton_ne _ "main.tf"
                    ("tf_azurerm" ++ "_out.log") (by decide))
                  (append_singleton_ne _ "main.tf"
                    ("tf_azurerm" ++ "_err.log") (by decide)),
                lookupFile_writeText_ne _ _ _ _
                  (append_singleton_ne _ "main.tf" "template.json"
                    (by decide)),
                lookupFile_mkdirP]
              exact (hclean _ (List.prefix_append _ _)
                (append_singleton_ne_self _ "main.tf")).1
        · rw [process_shape_s7 w rg subs_folder fs hexp hG1 hG2]
          refine ⟨Or.inr (Or.inr ⟨hexp, rfl⟩), fun h => absurd hexp h,
            fun d hd => Option.noConfusion hd, fun _ _ => ⟨?_, ?_⟩⟩
          · rw [ti_frame_at w rg _ "terraform_azapi" "tf_azapi" _ _
                (not_prefix_append_of_head_ne _ "terraform_azapi"
                  "template.json" [] [] (by decide))
                (append_singleton_ne _ "template.json"
                  ("tf_azapi" ++ "_out.log") (by decide))
                (append_singleton_ne _ "template.json"
                  ("tf_azapi" ++ "_err.log") (by decide)),
              ti_frame_at w rg _ "terraform_azurerm" "tf_azurerm" _ _
                (not_prefix_append_of_head_ne _ "terraform_azurerm"
                  "template.json" [] [] (by decide))
                (append_singleton_ne _ "template.json"
                  ("tf_azurerm" ++ "_out.log") (by decide))
                (append_singleton_ne _ "template.json"
                  ("tf_azurerm" ++ "_err.log") (by decide))]
            exact lookupFile_writeText_self _ _ _
          · rw [ti_frame_at w rg _ "terraform_azapi" "tf_azapi" _ _
                (not_prefix_append_of_head_ne _ "terraform_azapi"
                  "main.tf" [] [] (by decide))
                (append_singleton_ne _ "main.tf"
                  ("tf_azapi" ++ "_out.log") (by decide))
                (append_singleton_ne _ "main.tf"
                  ("tf_azapi" ++ "_err.log") (by decide)),
              ti_frame_at w rg _ "terraform_azurerm" "tf_azurerm" _ _
                (not_prefix_append_of_head_ne _ "terraform_azurerm"
                  "main.tf" [] [] (by decide))
                (append_singleton_ne _ "main.tf"
                  ("tf_azurerm" ++ "_out.log") (by decide))
                (append_singleton_ne _ "main.tf"
                  ("tf_azurerm" ++ "_err.log") (by decide)),
              lookupFile_writeText_ne _ _ _ _
                (append_singleton_ne _ "main.tf" "template.json"
                  (by decide)),
              lookupFile_mkdirP]
            exact (hclean _ (List.prefix_append _ _)
              (append_singleton_ne_self _ "main.tf")).1
  · rw [process_shape_export_fail w rg subs_folder hasT fs hexp]
    refine ⟨Or.inl ⟨hexp, rfl⟩, fun _ => ⟨rfl, fun p hp hne => ⟨?_, ?_⟩⟩,
      fun d hd => Option.noConfusion hd, fun hE => absurd hE hexp⟩
    · rw [lookupFile_mkdirP]
      exact (hclean p hp hne).1
    · rw [mem_dirs_mkdirP]
      rintro (hpre | hmem)
      · have h1 := length_lt_of_proper_prefix hp hne
        have h2 := hpre.length_le
        omega
      · exact (hclean p hp hne).2 hmem

/-- Witness for C2, case (c): export succeeds, both strategies fail
validation — the template exists and no consolidated artifact does. -/
theorem process_outcome_trichotomy_witness :
    (process_resource_group initFailWorld "rg" [] true
        FS.empty).2.1.lookupFile
      ([] ++ [safe_name "rg"] ++ ["template.json"]) = some "T" ∧
    (process_resource_group initFailWorld "rg" [] true
        FS.empty).2.1.lookupFile
      ([] ++ [safe_name "rg"] ++ ["main.tf"]) = none := by
  have h := process_outcome_trichotomy initFailWorld "rg" [] true FS.empty
    (fun p _ _ => ⟨rfl, by simp [FS.empty]⟩)
  exact ⟨(h.2.2.2 rfl (by decide)).1, (h.2.2.2 rfl (by decide)).2⟩

/-! ### Batch-driver lemmas -/

theorem process_noT_effects (w : World) (rg : String) (subs_folder : FPath)
    (fs : FS) :
    (process_resource_group w rg subs_folder false fs).2.2 =
      [Event.exportRun rg] ∧
    (∀ p, (process_resource_group w rg subs_folder false fs).2.1.lookupFile p ≠
        fs.lookupFile p →
      p = subs_folder ++ [safe_name rg] ++ ["template.json"]) ∧
    (∀ p, p ∈ (process_resource_group w rg subs_folder false fs).2.1.dirs →
      p ∈ fs.dirs ∨ p <+: subs_folder ++ [safe_name rg]) ∧
    (process_resource_group w rg subs_folder false fs).1 = none := by
  by_cases hexp : w.exportRes.code = 0
  · rw [process_shape_noT w rg subs_folder fs hexp]
    refine ⟨rfl, ?_, ?_, rfl⟩
    · intro p hp
      by_cases he : p = subs_folder ++ [safe_name rg] ++ ["template.json"]
      · exact he
      · exfalso
        apply hp
        rw [lookupFile_writeText_ne _ _ _ _ he, lookupFile_mkdirP]
    · intro p hp
      rw [dirs_writeText, mem_dirs_mkdirP] at hp
      exact hp.symm.imp_left id
  · rw [process_shape_export_fail w rg subs_folder false fs hexp]
    refine ⟨rfl, ?_, ?_, rfl⟩
    · intro p hp
      exact absurd (lookupFile_mkdirP fs _ p) hp
    · intro p hp
      rw [mem_dirs_mkdirP] at hp
      exact hp.symm.imp_left id

theorem processGroups_noT (mw : MainWorld) (subs_folder : FPath)
    (rgs : List String) (fs : FS) :
    (∀ e ∈ (processGroups mw subs_folder false rgs fs).2,
      ∃ g ∈ rgs, e = Event.exportRun g) ∧
    (∀ g ∈ rgs,
      Event.exportRun g ∈ (processGroups mw subs_folder false rgs fs).2) ∧
    (∀ p, (processGroups mw subs_folder false rgs fs).1.lookupFile p ≠
        fs.lookupFile p →
      ∃ g ∈ rgs, p = subs_folder ++ [safe_name g] ++ ["template.json"]) ∧
    (∀ p, p ∈ (processGroups mw subs_folder false rgs fs).1.dirs →
      p ∈ fs.dirs ∨ p <+: subs_folder ∨
        ∃ g ∈ rgs, p = subs_folder ++ [safe_name g]) := by
  induction rgs generalizing fs with
  | nil =>
    refine ⟨?_, ?_, ?_, ?_⟩
    · intro e he
      simp [processGroups] at he
    · intro g hg
      cases hg
    · intro p hp
      exact absurd rfl hp
    · intro p hp
      exact Or.inl hp
  | cons r rest ih =>
    have hr := process_noT_effects (mw.groupWorld r) r subs_folder fs
    refine ⟨?_, ?_, ?_, ?_⟩
    · intro e he
      simp only [processGroups] at he
      rcases List.mem_append.mp he with he | he
      · rw [hr.1] at he
        rcases List.mem_singleton.mp he with rfl
        exact ⟨r, List.mem_cons_self r rest, rfl⟩
      · rcases (ih _).1 e he with ⟨g, hg, rfl⟩
        exact ⟨g, List.mem_cons_of_mem r hg, rfl⟩
    · intro g hg
      rcases List.mem_cons.mp hg with rfl | hg'
      · simp only [processGroups]
        exact List.mem_append.mpr (Or.inl (by rw [hr.1]; simp))
      · simp only [processGroups]
        exact List.mem_append.mpr (Or.inr ((ih _).2.1 g hg'))
    · intro p hp
      simp only [processGroups] at hp
      by_cases hmid :
          (processGroups mw subs_folder false rest
            (process_resource_group (mw.groupWorld r) r subs_folder false
              fs).2.1).1.lookupFile p =
          (process_resource_group (mw.groupWorld r) r subs_folder false
            fs).2.1.lookupFile p
      · rw [hmid] at hp
        have := hr.2.1 p hp
        exact ⟨r, List.mem_cons_self r rest, this⟩
      · rcases (ih _).2.2.1 p hmid with ⟨g, hg, rfl⟩
        exact ⟨g, List.mem_cons_of_mem r hg, rfl⟩
    · intro p hp
      simp only [processGroups] at hp
      rcases (ih _).2.2.2 p hp with hmem | hpre | ⟨g, hg, rfl⟩
      · rcases hr.2.2.1 p hmem with hfs | hpre
        · exact Or.inl hfs
        · rcases (List.prefix_concat_iff.mp hpre) with rfl | hpre'
          · exact Or.inr (Or.inr ⟨r, List.mem_cons_self r rest, rfl⟩)
          · exact Or.inr (Or.inl hpre')
      · exact Or.inr (Or.inl hpre)
      · exact Or.inr (Or.inr ⟨g, List.mem_cons_of_mem r hg, rfl⟩)

theorem mainRun_ok (mw : MainWorld) (sid orootc : String) (use_sp : Bool)
    (fs : FS) (hlogin : az_login mw use_sp = .ok ())
    (hset : mw.accountSetCode = 0) (hlist : mw.groupListCode = 0) :
    mainRun mw sid orootc use_sp fs =
      (if mw.groupNames = [] then
        .ok ((fs.mkdirP [orootc]).mkdirP ([orootc] ++ [sid]),
          (if mw.hasTerraformer then [] else [Event.warn]) ++
            [Event.noneFound])
      else
        .ok ((processGroups mw ([orootc] ++ [sid]) mw.hasTerraformer
            mw.groupNames ((fs.mkdirP [orootc]).mkdirP ([orootc] ++ [sid]))).1,
          (if mw.hasTerraformer then [] else [Event.warn]) ++
            (processGroups mw ([orootc] ++ [sid]) mw.hasTerraformer
              mw.groupNames
              ((fs.mkdirP [orootc]).mkdirP ([orootc] ++ [sid]))).2)) := by
  simp [mainRun, hlogin, set_subscription, hset, list_resource_groups, hlist]

/-- C7: with the generation tool absent, a fatal-free run emits the warning
once, before any per-group event; every group still gets its export, but no
generation or validation is ever invoked, no file other than the groups'
`template.json` is written, no directory deeper than the per-group folders
is created — in particular no strategy subdirectory appears — and hence no
consolidated artifact exists. -/
theorem absent_tool_export_only (mw : MainWorld) (sid orootc : String)
    (use_sp : Bool) (fs : FS) (hlogin : az_login mw use_sp = .ok ())
    (hset : mw.accountSetCode = 0) (hlist : mw.groupListCode = 0)
    (hT : mw.hasTerraformer = false) :
    ∃ fs' evs,
      mainRun mw sid orootc use_sp fs = .ok (fs', Event.warn :: evs) ∧
      Event.warn ∉ evs ∧
      (∀ g lbl, Event.terraformerRun g lbl ∉ evs) ∧
      (∀ lbl, Event.initRun lbl ∉ evs) ∧
      (∀ g ∈ mw.groupNames, Event.exportRun g ∈ evs) ∧
      (∀ p, fs'.lookupFile p ≠ fs.lookupFile p →
        ∃ g ∈ mw.groupNames,
          p = [orootc] ++ [sid] ++ [safe_name g] ++ ["template.json"]) ∧
      (∀ p, p ∈ fs'.dirs → p ∈ fs.dirs ∨ p <+: [orootc] ++ [sid] ∨
        ∃ g ∈ mw.groupNames, p = [orootc] ++ [sid] ++ [safe_name g]) ∧
      (∀ g s, [orootc] ++ [sid] ++ [safe_name g] ++ [s] ∉ fs.dirs →
        [orootc] ++ [sid] ++ [safe_name g] ++ [s] ∉ fs'.dirs) := by
  rw [mainRun_ok mw sid orootc use_sp fs hlogin hset hlist, hT]
  have hdirs2 : ∀ p,
      p ∈ ((fs.mkdirP [orootc]).mkdirP ([orootc] ++ [sid])).dirs →
      p ∈ fs.dirs ∨ p <+: [orootc] ++ [sid] := by
    intro p hp
    rw [mem_dirs_mkdirP, mem_dirs_mkdirP] at hp
    rcases hp with hp | hp | hp
    · exact Or.inr hp
    · exact Or.inr (hp.trans (List.prefix_append [orootc] [sid]))
    · exact Or.inl hp
  by_cases hempty : mw.groupNames = []
  · rw [if_pos hempty]
    refine ⟨_, [Event.noneFound], rfl, by simp, by simp, by simp, ?_, ?_, ?_, ?_⟩
    · intro g hg
      rw [hempty] at hg
      cases hg
    · intro p hp
      exact absurd rfl hp
    · intro p hp
      rcases hdirs2 p hp with h | h
      · exact Or.inl h
      · exact Or.inr (Or.inl h)
    · intro g s hns hp
      rcases hdirs2 _ hp with h | h
      · exact hns h
      · have := h.length_le
        simp [List.length_append] at this
  · rw [if_neg hempty]
    have hpg := processGroups_noT mw ([orootc] ++ [sid]) mw.groupNames
      ((fs.mkdirP [orootc]).mkdirP ([orootc] ++ [sid]))
    refine ⟨_, _, rfl, ?_, ?_, ?_, ?_, ?_, ?_, ?_⟩
    · intro hw
      rcases hpg.1 _ hw with ⟨g, _, heq⟩
      cases heq
    · intro g lbl hw
      rcases hpg.1 _ hw with ⟨g', _, heq⟩
      cases heq
    · intro lbl hw
      rcases hpg.1 _ hw with ⟨g', _, heq⟩
      cases heq
    · exact hpg.2.1
    · intro p hp
      exact hpg.2.2.1 p hp
    · intro p hp
      rcases hpg.2.2.2 p hp with h | h | ⟨g, hg, rfl⟩
      · rcases hdirs2 p h with h' | h'
        · exact Or.inl h'
        · exact Or.inr (Or.inl h')
      · exact Or.inr (Or.inl h)
      · exact Or.inr (Or.inr ⟨g, hg, rfl⟩)
    · intro g s hns hp
      rcases hpg.2.2.2 _ hp with h | h | ⟨g', hg', heq⟩
      · rcases hdirs2 _ h with h' | h'
        · exact hns h'
        · have := h'.length_le
          simp [List.length_append] at this
      · have := h.length_le
        simp [List.length_append] at this
      · have := congrArg List.length heq
        simp [List.length_append] at this

/-- C9: with zero resource groups, the run reports that none were found,
performs no per-group work (no export, generation or validation events),
writes no files, and creates no per-group output directory (only the
output root and the subscription folder). -/
theorem zero_groups_no_work (mw : MainWorld) (sid orootc : String)
    (use_sp : Bool) (fs : FS) (hlogin : az_login mw use_sp = .ok ())
    (hset : mw.accountSetCode = 0) (hlist : mw.groupListCode = 0)
    (hempty : mw.groupNames = []) :
    mainRun mw sid orootc use_sp fs =
      .ok ((fs.mkdirP [orootc]).mkdirP ([orootc] ++ [sid]),
        (if mw.hasTerraformer then [] else [Event.warn]) ++
          [Event.noneFound]) ∧
    Event.noneFound ∈
      ((if mw.hasTerraformer then [] else [Event.warn]) ++
        [Event.noneFound]) ∧
    (∀ g, Event.exportRun g ∉
      ((if mw.hasTerraformer then [] else [Event.warn]) ++
        [Event.noneFound])) ∧
    (∀ g lbl, Event.terraformerRun g lbl ∉
      ((if mw.hasTerraformer then [] else [Event.warn]) ++
        [Event.noneFound])) ∧
    ((fs.mkdirP [orootc]).mkdirP ([orootc] ++ [sid])).files = fs.files ∧
    (∀ p, p ∈ ((fs.mkdirP [orootc]).mkdirP ([orootc] ++ [sid])).dirs →
      p ∈ fs.dirs ∨ p <+: [orootc] ++ [sid]) := by
  refine ⟨?_, ?_, ?_, ?_, rfl, ?_⟩
  · rw [mainRun_ok mw sid orootc use_sp fs hlogin hset hlist, if_pos hempty]
  · by_cases hT : mw.hasTerraformer = true <;> simp [hT]
  · intro g
    by_cases hT : mw.hasTerraformer = true <;> simp [hT]
  · intro g lbl
    by_cases hT : mw.hasTerraformer = true <;> simp [hT]
  · intro p hp
    rw [mem_dirs_mkdirP, mem_dirs_mkdirP] at hp
    rcases hp with hp | hp | hp
    · exact Or.inr hp
    · exact Or.inr (hp.trans (List.prefix_append [orootc] [sid]))
    · exact Or.inl hp

/-- A driver oracle with the generation tool absent and one group. -/
def noToolMainWorld : MainWorld :=
  ⟨some "i", some "s", some "t", 0, 0, 0, 0, 0, ["g"], false,
    fun _ => allOkWorld⟩

/-- A driver oracle with zero resource groups. -/
def emptyMainWorld : MainWorld :=
  ⟨some "i", some "s", some "t", 0, 0, 0, 0, 0, [], true,
    fun _ => allOkWorld⟩

/-- Witness for C7. -/
theorem absent_tool_export_only_witness :
    ∃ fs' evs,
      mainRun noToolMainWorld "s" "o" false FS.empty =
        .ok (fs', Event.warn :: evs) ∧
      (∀ g lbl, Event.terraformerRun g lbl ∉ evs) ∧
      Event.exportRun "g" ∈ evs := by
  rcases absent_tool_export_only noToolMainWorld "s" "o" false FS.empty
    rfl rfl rfl rfl with ⟨fs', evs, h1, _, h3, _, h5, _⟩
  exact ⟨fs', evs, h1, h3, h5 "g" (by decide)⟩

/-- Witness for C9. -/
theorem zero_groups_no_work_witness :
    mainRun emptyMainWorld "s" "o" false FS.empty =
      .ok ((FS.empty.mkdirP ["o"]).mkdirP (["o"] ++ ["s"]),
        (if emptyMainWorld.hasTerraformer then [] else [Event.warn]) ++
          [Event.noneFound]) ∧
    (∀ g, Event.exportRun g ∉
      ((if emptyMainWorld.hasTerraformer then [] else [Event.warn]) ++
        [Event.noneFound])) :=
  ⟨(zero_groups_no_work emptyMainWorld "s" "o" false FS.empty
      rfl rfl rfl rfl).1,
    (zero_groups_no_work emptyMainWorld "s" "o" false FS.empty
      rfl rfl rfl rfl).2.2.1⟩
